import Mathlib

/-!
Shallow embedding of the scripted household-task policy
(`textworld/agents/handcoded.py`): the perception extractor
(`get_objects_and_classes`), the per-task subgoal plans, and the policy
state machine (`BasePolicy.act`).

Python dictionaries are modelled as association lists with Python's
insertion-order semantics (`dictInsert` updates an existing key in place,
appends a fresh one at the end); Python `list.pop()` is `getLast?` /
`dropLast`; Python's uncaught `IndexError` / `KeyError` and an implicit
`return None` are explicit constructors of the step result type, each
carrying the state as mutated up to the point the exception escaped.
`random.choice` is modelled by an extra natural-number argument `rnd`
selecting index `rnd % length`, so quantifying over `rnd` covers every
possible random draw.
-/

namespace HandCoded

/-- One subgoal of a plan: an action verb and a target class,
mirroring the Python dicts `{'action': ..., 'param': ...}`. -/
structure Subgoal where
  action : String
  param : String
  deriving DecidableEq, Repr

/-- The class-level affordance priors of `BasePolicy`, loaded in the source
from the external `gen.constants` module (outside this repository):
`RECEPTACLES` (all receptacle classes, lowercased), `OPENABLE_OBJECTS`
(openable classes, lowercased) and `OBJECT_TO_VAL_RECEPTACLE` (object class
to the receptacle classes it is typically found in). -/
structure Priors where
  RECEPTACLES : List String
  OPENABLE_OBJECTS : List String
  OBJECT_TO_VAL_RECEPTACLE : List (String × List String)
  deriving DecidableEq, Repr

/-- The mutable attributes of a `BasePolicy` instance. -/
structure PolicyState where
  subgoals : List Subgoal
  max_steps : Nat
  receptacles : List (String × String)
  visible_objects : List (String × String)
  obj_cls_to_receptacle_map : List (String × String)
  subgoal_idx : Nat
  curr_recep : String
  checked_inside_curr_recep : Bool
  receptacles_to_check : List String
  inventory : List String
  action_backlog : List String
  steps : Nat
  deriving DecidableEq, Repr

/-- State of a fresh `BasePolicy(task_params, max_steps)` after `__init__`,
with `subgoals` as overridden by the concrete policy subclass. -/
def initState (plan : List Subgoal) (ms : Nat) : PolicyState :=
  { subgoals := plan
    max_steps := ms
    receptacles := []
    visible_objects := []
    obj_cls_to_receptacle_map := []
    subgoal_idx := 0
    curr_recep := ""
    checked_inside_curr_recep := false
    receptacles_to_check := []
    inventory := []
    action_backlog := []
    steps := 0 }

/-- `BasePolicy.__init__` sets `self.subgoals = [{'action': "look", 'param': ""}]`. -/
def baseSubgoals : List Subgoal := [⟨"look", ""⟩]

/-- Plan installed by `PickAndPlaceSimplePolicy.__init__` (replacing the base list). -/
def pickAndPlaceSimpleSubgoals (object_target parent_target : String) : List Subgoal :=
  [⟨"find", object_target⟩, ⟨"take", object_target⟩,
   ⟨"find", parent_target⟩, ⟨"put", parent_target⟩]

/-- Plan installed by `LookAtObjInLightPolicy.__init__`. -/
def lookAtObjInLightSubgoals (object_target toggle_target : String) : List Subgoal :=
  [⟨"find", object_target⟩, ⟨"take", object_target⟩,
   ⟨"find", toggle_target⟩, ⟨"use", toggle_target⟩]

/-- Plan installed by `PickHeatThenPlaceInRecepPolicy.__init__`. -/
def pickHeatThenPlaceSubgoals (object_target parent_target : String) : List Subgoal :=
  [⟨"find", object_target⟩, ⟨"take", object_target⟩, ⟨"goto", "microwave"⟩,
   ⟨"heat", object_target⟩, ⟨"find", parent_target⟩, ⟨"put", parent_target⟩]

/-- Plan installed by `PickCoolThenPlaceInRecepPolicy.__init__`. -/
def pickCoolThenPlaceSubgoals (object_target parent_target : String) : List Subgoal :=
  [⟨"find", object_target⟩, ⟨"take", object_target⟩, ⟨"goto", "fridge"⟩,
   ⟨"cool", object_target⟩, ⟨"find", parent_target⟩, ⟨"put", parent_target⟩]

/-- Plan installed by `PickCleanThenPlaceInRecepPolicy.__init__`. -/
def pickCleanThenPlaceSubgoals (object_target parent_target : String) : List Subgoal :=
  [⟨"find", object_target⟩, ⟨"take", object_target⟩, ⟨"goto", "sink"⟩,
   ⟨"clean", object_target⟩, ⟨"find", parent_target⟩, ⟨"put", parent_target⟩]

/-! ### String utilities (Python `str.split`, `str.rstrip`, `in`) -/

/-- Whitespace tokenization, Python `obs.split()`: split on runs of
whitespace, dropping empty pieces.  `acc` holds the current token reversed. -/
def tokenizeAux : List Char → List Char → List (List Char)
  | [], acc => if acc.isEmpty then [] else [acc.reverse]
  | c :: cs, acc =>
    if c.isWhitespace then
      if acc.isEmpty then tokenizeAux cs [] else acc.reverse :: tokenizeAux cs []
    else tokenizeAux cs (c :: acc)

/-- Python `obs.split()` as a list of character lists. -/
def tokenize (s : String) : List (List Char) := tokenizeAux s.data []

/-- Python `o.rstrip(".,")`: drop the trailing run of `'.'` and `','`. -/
def rstripPunct (cs : List Char) : List Char :=
  (cs.reverse.dropWhile (fun c => c = '.' ∨ c = ',')).reverse

/-- `pre` is a leading segment of the second list. -/
def leadsList : List Char → List Char → Bool
  | [], _ => true
  | _ :: _, [] => false
  | a :: as, b :: bs => a = b && leadsList as bs

/-- Python substring test `pat in s` on character lists. -/
def containsSub (pat : List Char) : List Char → Bool
  | [] => leadsList pat []
  | c :: rest => leadsList pat (c :: rest) || containsSub pat rest

/-- Python `"Welcome" in obs`. -/
def hasWelcome (obs : String) : Bool := containsSub "Welcome".data obs.data

/-! ### Python dict as an association list -/

/-- Python `d[k] = v`: update in place if `k` is a key, else append. -/
def dictInsert (d : List (String × String)) (k v : String) : List (String × String) :=
  if d.any (fun p => p.1 = k) then
    d.map (fun p => if p.1 = k then (k, v) else p)
  else d ++ [(k, v)]

/-- Python `d[k]` / `k in d` on a string-valued dict. -/
def dictGet? (d : List (String × String)) (k : String) : Option String :=
  (d.find? (fun p => p.1 = k)).map (fun p => p.2)

/-- Python `d[k]` on the affordance table `OBJECT_TO_VAL_RECEPTACLE`. -/
def dictGetL? (d : List (String × List String)) (k : String) : Option (List String) :=
  (d.find? (fun p => p.1 = k)).map (fun p => p.2)

/-! ### Perception extractor -/

/-- `BasePolicy.get_hashed_objects_in_str(obs, '_')`:
`[o.rstrip(".,") for o in obs.split() if '_' in o]`. -/
def get_hashed_objects_in_str (obs : String) : List String :=
  ((tokenize obs).filter (fun t => t.contains '_')).map
    (fun t => String.mk (rstripPunct t))

/-- Class of a stripped token: Python `o.split('_')[0]`, the part before
the first separator. -/
def clsOfMention (o : String) : String :=
  String.mk (o.data.takeWhile (fun c => ¬ c = '_'))

/-- `BasePolicy.get_objects_and_classes(obs, '_')`:
`dict((o, o.split('_')[0]) for o in hashed_objects)`. -/
def get_objects_and_classes (obs : String) : List (String × String) :=
  (get_hashed_objects_in_str obs).foldl (fun d o => dictInsert d o (clsOfMention o)) []

/-! ### Working-memory queries used by `act` -/

/-- `BasePolicy.get_list_of_objects_of_class(obj_cls, obj_dict)`. -/
def objsOfCls (obj_cls : String) (obj_dict : List (String × String)) : List String :=
  (obj_dict.filter (fun p => p.2 = obj_cls)).map (fun p => p.1)

/-- `BasePolicy.get_list_of_receptacles_of_type(recep_cls)`. -/
def recepsOfType (s : PolicyState) (recep_cls : String) : List String :=
  (s.receptacles.filter (fun p => p.2 = recep_cls)).map (fun p => p.1)

/-- Body of `BasePolicy.get_list_of_receptacles_to_search_for_object_cls`
after the (fallible) affordance lookup produced `obj_found_in_receps`. -/
def recepsHolding (s : PolicyState) (obj_found_in_receps : List String) : List String :=
  (s.receptacles.filter (fun p => p.2 ∈ obj_found_in_receps)).map (fun p => p.1)

/-- `BasePolicy.is_receptacle_openable(recep)`: falsy `""` short-circuits
the `and`; otherwise `self.receptacles[recep]` may raise `KeyError`
(the `.error` case). -/
def is_receptacle_openable (P : Priors) (s : PolicyState) (recep : String) :
    Except Unit Bool :=
  if recep = "" then .ok false
  else
    match dictGet? s.receptacles recep with
    | some cls => .ok (cls ∈ P.OPENABLE_OBJECTS)
    | none => .error ()

/-! ### The step function -/

/-- Result of one `BasePolicy.act` call.  Every constructor carries the
policy state as mutated up to the moment the call returned or the
exception escaped: `cmd` is a returned command string, `timeout` is
`HandCodedAgentTimeout`, `failed` is `HandCodedAgentFailed`, `indexError`
and `keyError` are the uncaught Python exceptions from empty-sequence
access (`random.choice`, `pop`, `[0]`) and a missing dict key, and
`noneResult` is Python's implicit `return None` when no dispatch branch
matches the active verb. -/
inductive ActResult where
  | cmd (c : String) (s : PolicyState)
  | timeout (s : PolicyState)
  | failed (s : PolicyState)
  | indexError (s : PolicyState)
  | keyError (s : PolicyState)
  | noneResult (s : PolicyState)
  deriving DecidableEq, Repr

/-- The command returned by a step result, when it returned one. -/
def ActResult.command : ActResult → Option String
  | .cmd c _ => some c
  | _ => none

/-- The state carried by a step result. -/
def ActResult.state : ActResult → PolicyState
  | .cmd _ s => s
  | .timeout s => s
  | .failed s => s
  | .indexError s => s
  | .keyError s => s
  | .noneResult s => s

/-- `random.choice(l)`: any element for a non-empty list (selected by the
oracle `rnd`), `IndexError` (`none`) on an empty one. -/
def choose (rnd : Nat) (l : List String) : Option String :=
  l.get? (rnd % l.length)

/-- Observation ingestion (lines 91–99 of the source): a `"Welcome"`
observation replaces `receptacles`; any other observation replaces
`visible_objects` and records `obj_cls_to_receptacle_map[o_cls] = curr_recep`
for every visible object. -/
def ingest (s : PolicyState) (obs : String) : PolicyState :=
  if hasWelcome obs then
    { s with receptacles := get_objects_and_classes obs }
  else
    let vis := get_objects_and_classes obs
    { s with
      visible_objects := vis
      obj_cls_to_receptacle_map :=
        vis.foldl (fun m p => dictInsert m p.2 s.curr_recep) s.obj_cls_to_receptacle_map }

/-- Search step of the `find` branch after the frontier has been resolved
(lines 124–138): opportunistically open the current receptacle, else drain
the backlog or move to the next frontier receptacle. -/
def continueFind (P : Priors) (s : PolicyState) : ActResult :=
  match is_receptacle_openable P s s.curr_recep with
  | .error _ => .keyError s
  | .ok opn =>
    if opn && !s.checked_inside_curr_recep then
      .cmd ("open " ++ s.curr_recep)
        { s with
          checked_inside_curr_recep := true
          action_backlog := s.action_backlog ++ ["close " ++ s.curr_recep] }
    else
      if s.action_backlog.isEmpty then
        match s.receptacles_to_check.getLast? with
        | none => .indexError s
        | some r =>
          -- the source re-checks openability after assigning `curr_recep := r`;
          -- that assignment leaves `receptacles` untouched, so the check reads
          -- the same dict as `is_receptacle_openable P s r`
          match is_receptacle_openable P s r with
          | .error _ =>
            .keyError { s with
              receptacles_to_check := s.receptacles_to_check.dropLast
              curr_recep := r }
          | .ok opn1 =>
            .cmd ("go to " ++ r)
              { s with
                receptacles_to_check := s.receptacles_to_check.dropLast
                curr_recep := r
                checked_inside_curr_recep := !opn1 }
      else
        .cmd ((s.action_backlog.getLast?).getD "")
          { s with action_backlog := s.action_backlog.dropLast }

/-- Frontier resolution of an unmet `find` subgoal (lines 109–122):
sticky class-location memory first; else, when the frontier is empty,
receptacles of the target class or receptacles affording the target class
(a missing affordance entry raises `KeyError`), with all known receptacles
as the final fallback. -/
def findSearch (P : Priors) (s : PolicyState) (param : String) : ActResult :=
  match dictGet? s.obj_cls_to_receptacle_map param with
  | some r => continueFind P { s with receptacles_to_check := [r] }
  | none =>
    if s.receptacles_to_check.isEmpty then
      if param ∈ P.RECEPTACLES then
        let l := recepsOfType s param
        continueFind P { s with
          receptacles_to_check := if l.isEmpty then s.receptacles.map (fun p => p.1) else l }
      else
        match dictGetL? P.OBJECT_TO_VAL_RECEPTACLE param with
        | none => .keyError s
        | some rs =>
          let l := recepsHolding s rs
          continueFind P { s with
            receptacles_to_check := if l.isEmpty then s.receptacles.map (fun p => p.1) else l }
    else continueFind P s

/-- The `# GOTO` block (lines 140–146): go to the first receptacle of the
target class (`target_receps[0]` raises `IndexError` when none exists). -/
def gotoBranch (s : PolicyState) (sg : Subgoal) : ActResult :=
  match (recepsOfType s sg.param).head? with
  | none => .indexError s
  | some r =>
    .cmd ("go to " ++ r) { s with curr_recep := r, subgoal_idx := s.subgoal_idx + 1 }

/-- The `# TAKE` block (lines 148–159): open-first gating, then take a
randomly chosen visible object of the target class
(`random.choice` raises `IndexError` when none is visible). -/
def takeBranch (P : Priors) (rnd : Nat) (s : PolicyState) (sg : Subgoal) : ActResult :=
  match is_receptacle_openable P s s.curr_recep with
  | .error _ => .keyError s
  | .ok opn =>
    if opn && !s.checked_inside_curr_recep then
      .cmd ("open " ++ s.curr_recep)
        { s with
          action_backlog := s.action_backlog ++ ["close " ++ s.curr_recep]
          checked_inside_curr_recep := true }
    else
      match choose rnd (objsOfCls sg.param s.visible_objects) with
      | none => .indexError s
      | some o =>
        .cmd ("take " ++ o ++ " from " ++ s.curr_recep)
          { s with inventory := s.inventory ++ [o], subgoal_idx := s.subgoal_idx + 1 }

/-- The `# PUT` block (lines 161–171): open-first gating, then put the
most recently taken inventory item (`inventory.pop()` raises `IndexError`
on an empty inventory). -/
def putBranch (P : Priors) (s : PolicyState) : ActResult :=
  match is_receptacle_openable P s s.curr_recep with
  | .error _ => .keyError s
  | .ok opn =>
    if opn && !s.checked_inside_curr_recep then
      .cmd ("open " ++ s.curr_recep)
        { s with
          action_backlog := s.action_backlog ++ ["close " ++ s.curr_recep]
          checked_inside_curr_recep := true }
    else
      match s.inventory.getLast? with
      | none => .indexError s
      | some o =>
        .cmd ("put " ++ o ++ " in/on " ++ s.curr_recep)
          { s with inventory := s.inventory.dropLast, subgoal_idx := s.subgoal_idx + 1 }

/-- The `# HEAT` / `# COOL` / `# CLEAN` blocks (lines 185–204): apply the
verb to `inventory[0]` (raises `IndexError` on an empty inventory). -/
def applianceBranch (verb : String) (s : PolicyState) : ActResult :=
  match s.inventory.head? with
  | none => .indexError s
  | some o =>
    .cmd (verb ++ " " ++ o ++ " with " ++ s.curr_recep)
      { s with subgoal_idx := s.subgoal_idx + 1 }

/-- The `# SLICE` block (lines 206–212): choose a visible object of the
target class, then slice it with `inventory[0]`. -/
def sliceBranch (rnd : Nat) (s : PolicyState) (sg : Subgoal) : ActResult :=
  match choose rnd (objsOfCls sg.param s.visible_objects) with
  | none => .indexError s
  | some o =>
    match s.inventory.head? with
    | none => .indexError s
    | some knife =>
      .cmd ("slice " ++ o ++ " with " ++ knife) { s with subgoal_idx := s.subgoal_idx + 1 }

/-- The `# USE` block (lines 214–219): use a randomly chosen visible
object of the target class. -/
def useBranch (rnd : Nat) (s : PolicyState) (sg : Subgoal) : ActResult :=
  match choose rnd (objsOfCls sg.param s.visible_objects) with
  | none => .indexError s
  | some o => .cmd ("use " ++ o) { s with subgoal_idx := s.subgoal_idx + 1 }

/-- The dispatch chain after the `find` block (lines 140–219): `goto`,
`take`, `put`, `open`, `close`, `heat`, `cool`, `clean`, `slice`, `use`,
each refetching the subgoal at the current index (that refetch raises
`IndexError` when a completed `find` advanced the cursor past the end);
a verb matching no branch falls off the end of `act` and returns `None`. -/
def dispatchRest (P : Priors) (rnd : Nat) (s : PolicyState) : ActResult :=
  match s.subgoals.get? s.subgoal_idx with
  | none => .indexError s
  | some sg =>
    if sg.action = "goto" then gotoBranch s sg
    else if sg.action = "take" then takeBranch P rnd s sg
    else if sg.action = "put" then putBranch P s
    else if sg.action = "open" then
      .cmd ("open " ++ s.curr_recep) { s with subgoal_idx := s.subgoal_idx + 1 }
    else if sg.action = "close" then
      .cmd ("close " ++ s.curr_recep) { s with subgoal_idx := s.subgoal_idx + 1 }
    else if sg.action = "heat" then applianceBranch "heat" s
    else if sg.action = "cool" then applianceBranch "cool" s
    else if sg.action = "clean" then applianceBranch "clean" s
    else if sg.action = "slice" then sliceBranch rnd s sg
    else if sg.action = "use" then useBranch rnd s sg
    else .noneResult s

/-- The per-subgoal dispatch of `act` after observation ingestion
(lines 101–219).  A `find` subgoal that is complete clears the frontier
and the backlog, advances the cursor and falls through into the dispatch
chain at the new index within the same call. -/
def actBody (P : Priors) (rnd : Nat) (s : PolicyState) : ActResult :=
  match s.subgoals.get? s.subgoal_idx with
  | none => .indexError s
  | some sg =>
    if sg.action = "find" then
      if (objsOfCls sg.param s.visible_objects).isEmpty then
        findSearch P s sg.param
      else
        dispatchRest P rnd
          { s with
            receptacles_to_check := []
            action_backlog := []
            subgoal_idx := s.subgoal_idx + 1 }
    else dispatchRest P rnd s

/-- `BasePolicy.act(obs)` (lines 79–219): increment the step counter,
raise `Timeout` past the budget, drain or fail on an exhausted plan,
otherwise ingest the observation and dispatch on the active subgoal. -/
def act (P : Priors) (rnd : Nat) (s0 : PolicyState) (obs : String) : ActResult :=
  let s := { s0 with steps := s0.steps + 1 }
  if s.steps > s.max_steps then .timeout s
  else if s.subgoals.length ≤ s.subgoal_idx then
    match s.action_backlog.getLast? with
    | some c => .cmd c { s with action_backlog := s.action_backlog.dropLast }
    | none => .failed s
  else actBody P rnd (ingest s obs)

/-- States reachable from a fresh policy by any sequence of `act` calls
(with arbitrary observations and random draws), including the states left
behind by calls that raised. -/
inductive Reachable (P : Priors) : PolicyState → Prop where
  | init (plan : List Subgoal) (ms : Nat) : Reachable P (initState plan ms)
  | step (s : PolicyState) (rnd : Nat) (obs : String) :
      Reachable P s → Reachable P ((act P rnd s obs).state)

/-- A concrete instantiation of the affordance priors, standing in for the
external `gen.constants` data in concrete scenarios: `countertop` and
`sink` are not openable, `fridge`, `cabinet` and `microwave` are; apples
are typically found in fridges and on countertops, mugs in cabinets. -/
def samplePriors : Priors :=
  { RECEPTACLES := ["countertop", "fridge", "cabinet", "sink", "microwave"]
    OPENABLE_OBJECTS := ["fridge", "cabinet", "microwave"]
    OBJECT_TO_VAL_RECEPTACLE :=
      [("apple", ["fridge", "countertop"]), ("mug", ["cabinet"])] }

/-! ### Concrete states used in scenarios, witnesses and counterexamples -/

/-- A policy that has already spent its whole budget of 5 steps. -/
def wTimeout : PolicyState := { initState baseSubgoals 5 with steps := 5 }

/-- A policy whose plan is exhausted with one deferred close still queued. -/
def wExhausted : PolicyState :=
  { initState baseSubgoals 10 with
    subgoal_idx := 1
    action_backlog := ["close cabinet_1"]
    steps := 2 }

/-- The spec's §8 scenario state: receptacles known from the intro, the
agent at `countertop_1`, and the `find(apple)` subgoal of a
pick-and-place plan active. -/
def sScenario : PolicyState :=
  { initState (pickAndPlaceSimpleSubgoals "apple" "countertop") 100 with
    receptacles := [("fridge_1", "fridge"), ("countertop_1", "countertop"), ("sink_1", "sink")]
    curr_recep := "countertop_1"
    checked_inside_curr_recep := true
    receptacles_to_check := ["fridge_1"]
    steps := 3 }

/-- Fresh pick-and-place policy used by the concrete runs. -/
def sFresh : PolicyState := initState (pickAndPlaceSimpleSubgoals "apple" "countertop") 100

/-- A fresh pick-and-place policy whose world has a single openable
cabinet, with the agent already positioned at it. -/
def sCab : PolicyState :=
  { sFresh with
    receptacles := [("cabinet_1", "cabinet")]
    curr_recep := "cabinet_1" }

/-- State after `sCab` observes an empty scene: the `find(apple)` subgoal
opportunistically opens `cabinet_1` and queues its close. -/
def sCabOpened : PolicyState := (act samplePriors 0 sCab "Nothing here").state

/-- The reachable run behind the C1 counterexample: a `find(apple)` that
completes while the fridge is closed, making `take` issue the deferred
`open`; the following observation shows no apple, so `take` hits
`random.choice` on an empty list. -/
def c1Run1 : ActResult := act samplePriors 0 sFresh "Welcome fridge_1"

/-- Second call of the C1 run. -/
def c1Run2 : ActResult := act samplePriors 0 c1Run1.state "You see a closed fridge_1."

/-- Third call of the C1 run. -/
def c1Run3 : ActResult := act samplePriors 0 c1Run2.state "The fridge_1 is empty."

/-- Fourth call of the C1 run. -/
def c1Run4 : ActResult := act samplePriors 0 c1Run3.state "The fridge_1 is closed."

/-- Fifth call of the C1 run: `find(apple)` completes and `take` opens. -/
def c1Run5 : ActResult := act samplePriors 0 c1Run4.state "You see apple_3 in fridge_1."

/-- Sixth call of the C1 run: `take` with no visible apple. -/
def c1Run6 : ActResult := act samplePriors 0 c1Run5.state "The fridge_1 is empty."

/-- The single call behind the C9 counterexample: a first observation that
is not introductory but mentions an object, recorded at the empty
location `""`. -/
def c9Run1 : ActResult := act samplePriors 0 sFresh "You see a mug_2."

/-- A receptacle mention is accounted for by a receptacle census when it
is the empty string (the agent's initial "nowhere" position, recorded as
a location before the agent first moves) or one of the census keys. -/
def MentionOK (receptacles : List (String × String)) (r : String) : Prop :=
  r = "" ∨ r ∈ receptacles.map (fun p => p.1)

/-- The C9 working-memory invariant, strengthened with the current
receptacle for the induction: every location value in
`obj_cls_to_receptacle_map`, every frontier entry, and `curr_recep`
itself is accounted for by the `receptacles` census. -/
def MemInv (s : PolicyState) : Prop :=
  (∀ p ∈ s.obj_cls_to_receptacle_map, MentionOK s.receptacles p.2) ∧
  (∀ r ∈ s.receptacles_to_check, MentionOK s.receptacles r) ∧
  MentionOK s.receptacles s.curr_recep

/-- Drive a policy through a list of (random draw, observation) calls,
keeping the state each call leaves behind. -/
def runF (P : Priors) (s : PolicyState) (inputs : List (Nat × String)) : PolicyState :=
  inputs.foldl (fun t i => (act P i.1 t i.2).state) s

/-- Spec-side characterization, for the amended C1, of the
missing-information situations in which `BasePolicy.act` does not return
a command or one of its two terminal errors, stated over the state `t`
the call has after ingesting the observation.  One of these holds
whenever the call ends in an uncaught `IndexError` / `KeyError` or in
Python's implicit `return None`:
an unmet `find` whose target class has no affordance entry, whose current
or remembered/queued receptacle is not in the census, or with no known
receptacle at all; a plan whose `find` completes at its last subgoal; a
`goto` with no receptacle of its class; a `take`/`put` at a current
receptacle missing from the census; a `take`, `slice` or `use` with no
visible object of the target class; a `put`, `heat`, `cool`, `clean` or
`slice` with an empty inventory; or an active verb (such as `look` or a
second consecutive `find`) matched by no dispatch branch. -/
def BodyMissing (P : Priors) (t : PolicyState) : Prop :=
  ∃ sg, t.subgoals.get? t.subgoal_idx = some sg ∧
    ((sg.action = "find" ∧ objsOfCls sg.param t.visible_objects = [] ∧
       ((dictGet? t.obj_cls_to_receptacle_map sg.param = none ∧
         t.receptacles_to_check = [] ∧ sg.param ∉ P.RECEPTACLES ∧
         dictGetL? P.OBJECT_TO_VAL_RECEPTACLE sg.param = none) ∨
        (¬ t.curr_recep = "" ∧ dictGet? t.receptacles t.curr_recep = none) ∨
        (dictGet? t.obj_cls_to_receptacle_map sg.param = none ∧
         t.receptacles_to_check = [] ∧ t.receptacles = []) ∨
        (∃ r, (dictGet? t.obj_cls_to_receptacle_map sg.param = some r ∨
               r ∈ t.receptacles_to_check) ∧ ¬ r = "" ∧
              dictGet? t.receptacles r = none))) ∨
     (sg.action = "find" ∧ ¬ objsOfCls sg.param t.visible_objects = [] ∧
       t.subgoals.length ≤ t.subgoal_idx + 1) ∨
     (∃ sgN,
       ((sg.action = "find" ∧ ¬ objsOfCls sg.param t.visible_objects = [] ∧
         t.subgoals.get? (t.subgoal_idx + 1) = some sgN) ∨
        (¬ sg.action = "find" ∧ sgN = sg)) ∧
       ((sgN.action = "goto" ∧ recepsOfType t sgN.param = []) ∨
        ((sgN.action = "take" ∨ sgN.action = "put") ∧
          ¬ t.curr_recep = "" ∧ dictGet? t.receptacles t.curr_recep = none) ∨
        (sgN.action = "take" ∧ objsOfCls sgN.param t.visible_objects = []) ∨
        (sgN.action = "put" ∧ t.inventory = []) ∨
        ((sgN.action = "heat" ∨ sgN.action = "cool" ∨ sgN.action = "clean") ∧
          t.inventory = []) ∨
        (sgN.action = "slice" ∧
          (objsOfCls sgN.param t.visible_objects = [] ∨ t.inventory = [])) ∨
        (sgN.action = "use" ∧ objsOfCls sgN.param t.visible_objects = []) ∨
        sgN.action ∉ (["goto", "take", "put", "open", "close", "heat", "cool",
          "clean", "slice", "use"] : List String))))

/-- A policy whose `take(apple)` subgoal is active while it stands at a
closed, not-yet-inspected cabinet. -/
def wTakeGate : PolicyState :=
  { sFresh with
    subgoal_idx := 1
    receptacles := [("cabinet_1", "cabinet")]
    curr_recep := "cabinet_1"
    checked_inside_curr_recep := false }

/-- A searching policy that remembers having seen an apple at
`fridge_1`, used to exercise the sticky-memory branch of the frontier
resolution. -/
def wSticky : PolicyState :=
  { sFresh with
    receptacles := [("fridge_1", "fridge")]
    obj_cls_to_receptacle_map := [("apple", "fridge_1")]
    curr_recep := "fridge_1"
    checked_inside_curr_recep := true }

end HandCoded

namespace HandCoded

lemma continueFind_frame (P : Priors) (s : PolicyState) :
    ((continueFind P s).state.subgoals = s.subgoals) ∧
    ((continueFind P s).state.max_steps = s.max_steps) ∧
    ((continueFind P s).state.steps = s.steps) ∧
    ((continueFind P s).state.receptacles = s.receptacles) ∧
    ((continueFind P s).state.visible_objects = s.visible_objects) ∧
    ((continueFind P s).state.obj_cls_to_receptacle_map = s.obj_cls_to_receptacle_map) ∧
    ((continueFind P s).state.subgoal_idx = s.subgoal_idx) ∧
    ((continueFind P s).state.inventory = s.inventory) := by
  unfold continueFind
  repeat' split
  all_goals simp [ActResult.state]

lemma continueFind_ne (P : Priors) (s : PolicyState) (t : PolicyState) :
    continueFind P s ≠ .timeout t ∧ continueFind P s ≠ .failed t ∧
    continueFind P s ≠ .noneResult t := by
  unfold continueFind
  repeat' split
  all_goals simp

lemma findSearch_frame (P : Priors) (s : PolicyState) (param : String) :
    ((findSearch P s param).state.subgoals = s.subgoals) ∧
    ((findSearch P s param).state.max_steps = s.max_steps) ∧
    ((findSearch P s param).state.steps = s.steps) ∧
    ((findSearch P s param).state.receptacles = s.receptacles) ∧
    ((findSearch P s param).state.visible_objects = s.visible_objects) ∧
    ((findSearch P s param).state.obj_cls_to_receptacle_map = s.obj_cls_to_receptacle_map) ∧
    ((findSearch P s param).state.subgoal_idx = s.subgoal_idx) ∧
    ((findSearch P s param).state.inventory = s.inventory) := by
  unfold findSearch
  repeat' split
  all_goals first
    | exact continueFind_frame P _
    | simpa using continueFind_frame P _
    | simp [ActResult.state]

lemma findSearch_ne (P : Priors) (s : PolicyState) (param : String) (t : PolicyState) :
    findSearch P s param ≠ .timeout t ∧ findSearch P s param ≠ .failed t ∧
    findSearch P s param ≠ .noneResult t := by
  unfold findSearch
  repeat' split
  all_goals first
    | exact continueFind_ne P _ t
    | simp

lemma gotoBranch_frame (s : PolicyState) (sg : Subgoal) :
    ((gotoBranch s sg).state.subgoals = s.subgoals) ∧
    ((gotoBranch s sg).state.max_steps = s.max_steps) ∧
    ((gotoBranch s sg).state.steps = s.steps) ∧
    ((gotoBranch s sg).state.receptacles = s.receptacles) ∧
    ((gotoBranch s sg).state.visible_objects = s.visible_objects) ∧
    ((gotoBranch s sg).state.obj_cls_to_receptacle_map = s.obj_cls_to_receptacle_map) ∧
    ((gotoBranch s sg).state.receptacles_to_check = s.receptacles_to_check) := by
  unfold gotoBranch
  repeat' split
  all_goals simp [ActResult.state]

lemma takeBranch_frame (P : Priors) (rnd : Nat) (s : PolicyState) (sg : Subgoal) :
    ((takeBranch P rnd s sg).state.subgoals = s.subgoals) ∧
    ((takeBranch P rnd s sg).state.max_steps = s.max_steps) ∧
    ((takeBranch P rnd s sg).state.steps = s.steps) ∧
    ((takeBranch P rnd s sg).state.receptacles = s.receptacles) ∧
    ((takeBranch P rnd s sg).state.visible_objects = s.visible_objects) ∧
    ((takeBranch P rnd s sg).state.obj_cls_to_receptacle_map = s.obj_cls_to_receptacle_map) ∧
    ((takeBranch P rnd s sg).state.receptacles_to_check = s.receptacles_to_check) := by
  unfold takeBranch
  repeat' split
  all_goals simp [ActResult.state]

lemma putBranch_frame (P : Priors) (s : PolicyState) :
    ((putBranch P s).state.subgoals = s.subgoals) ∧
    ((putBranch P s).state.max_steps = s.max_steps) ∧
    ((putBranch P s).state.steps = s.steps) ∧
    ((putBranch P s).state.receptacles = s.receptacles) ∧
    ((putBranch P s).state.visible_objects = s.visible_objects) ∧
    ((putBranch P s).state.obj_cls_to_receptacle_map = s.obj_cls_to_receptacle_map) ∧
    ((putBranch P s).state.receptacles_to_check = s.receptacles_to_check) := by
  unfold putBranch
  repeat' split
  all_goals simp [ActResult.state]

lemma applianceBranch_frame (verb : String) (s : PolicyState) :
    ((applianceBranch verb s).state.subgoals = s.subgoals) ∧
    ((applianceBranch verb s).state.max_steps = s.max_steps) ∧
    ((applianceBranch verb s).state.steps = s.steps) ∧
    ((applianceBranch verb s).state.receptacles = s.receptacles) ∧
    ((applianceBranch verb s).state.visible_objects = s.visible_objects) ∧
    ((applianceBranch verb s).state.obj_cls_to_receptacle_map = s.obj_cls_to_receptacle_map) ∧
    ((applianceBranch verb s).state.receptacles_to_check = s.receptacles_to_check) := by
  unfold applianceBranch
  repeat' split
  all_goals simp [ActResult.state]

lemma sliceBranch_frame (rnd : Nat) (s : PolicyState) (sg : Subgoal) :
    ((sliceBranch rnd s sg).state.subgoals = s.subgoals) ∧
    ((sliceBranch rnd s sg).state.max_steps = s.max_steps) ∧
    ((sliceBranch rnd s sg).state.steps = s.steps) ∧
    ((sliceBranch rnd s sg).state.receptacles = s.receptacles) ∧
    ((sliceBranch rnd s sg).state.visible_objects = s.visible_objects) ∧
    ((sliceBranch rnd s sg).state.obj_cls_to_receptacle_map = s.obj_cls_to_receptacle_map) ∧
    ((sliceBranch rnd s sg).state.receptacles_to_check = s.receptacles_to_check) := by
  unfold sliceBranch
  repeat' split
  all_goals simp [ActResult.state]

lemma useBranch_frame (rnd : Nat) (s : PolicyState) (sg : Subgoal) :
    ((useBranch rnd s sg).state.subgoals = s.subgoals) ∧
    ((useBranch rnd s sg).state.max_steps = s.max_steps) ∧
    ((useBranch rnd s sg).state.steps = s.steps) ∧
    ((useBranch rnd s sg).state.receptacles = s.receptacles) ∧
    ((useBranch rnd s sg).state.visible_objects = s.visible_objects) ∧
    ((useBranch rnd s sg).state.obj_cls_to_receptacle_map = s.obj_cls_to_receptacle_map) ∧
    ((useBranch rnd s sg).state.receptacles_to_check = s.receptacles_to_check) := by
  unfold useBranch
  repeat' split
  all_goals simp [ActResult.state]

lemma dispatchRest_frame (P : Priors) (rnd : Nat) (s : PolicyState) :
    ((dispatchRest P rnd s).state.subgoals = s.subgoals) ∧
    ((dispatchRest P rnd s).state.max_steps = s.max_steps) ∧
    ((dispatchRest P rnd s).state.steps = s.steps) ∧
    ((dispatchRest P rnd s).state.receptacles = s.receptacles) ∧
    ((dispatchRest P rnd s).state.visible_objects = s.visible_objects) ∧
    ((dispatchRest P rnd s).state.obj_cls_to_receptacle_map = s.obj_cls_to_receptacle_map) ∧
    ((dispatchRest P rnd s).state.receptacles_to_check = s.receptacles_to_check) := by
  unfold dispatchRest
  repeat' split
  all_goals first
    | exact gotoBranch_frame _ _
    | exact takeBranch_frame P rnd _ _
    | exact putBranch_frame P _
    | exact applianceBranch_frame _ _
    | exact sliceBranch_frame rnd _ _
    | exact useBranch_frame rnd _ _
    | simp [ActResult.state]

lemma gotoBranch_ne (s : PolicyState) (sg : Subgoal) (t : PolicyState) :
    gotoBranch s sg ≠ .timeout t ∧ gotoBranch s sg ≠ .failed t := by
  unfold gotoBranch
  repeat' split
  all_goals simp

lemma takeBranch_ne (P : Priors) (rnd : Nat) (s : PolicyState) (sg : Subgoal) (t : PolicyState) :
    takeBranch P rnd s sg ≠ .timeout t ∧ takeBranch P rnd s sg ≠ .failed t := by
  unfold takeBranch
  repeat' split
  all_goals simp

lemma putBranch_ne (P : Priors) (s : PolicyState) (t : PolicyState) :
    putBranch P s ≠ .timeout t ∧ putBranch P s ≠ .failed t := by
  unfold putBranch
  repeat' split
  all_goals simp

lemma applianceBranch_ne (verb : String) (s : PolicyState) (t : PolicyState) :
    applianceBranch verb s ≠ .timeout t ∧ applianceBranch verb s ≠ .failed t := by
  unfold applianceBranch
  repeat' split
  all_goals simp

lemma sliceBranch_ne (rnd : Nat) (s : PolicyState) (sg : Subgoal) (t : PolicyState) :
    sliceBranch rnd s sg ≠ .timeout t ∧ sliceBranch rnd s sg ≠ .failed t := by
  unfold sliceBranch
  repeat' split
  all_goals simp

lemma useBranch_ne (rnd : Nat) (s : PolicyState) (sg : Subgoal) (t : PolicyState) :
    useBranch rnd s sg ≠ .timeout t ∧ useBranch rnd s sg ≠ .failed t := by
  unfold useBranch
  repeat' split
  all_goals simp

lemma dispatchRest_ne (P : Priors) (rnd : Nat) (s : PolicyState) (t : PolicyState) :
    dispatchRest P rnd s ≠ .timeout t ∧ dispatchRest P rnd s ≠ .failed t := by
  unfold dispatchRest
  repeat' split
  all_goals first
    | exact gotoBranch_ne _ _ t
    | exact takeBranch_ne P rnd _ _ t
    | exact putBranch_ne P _ t
    | exact applianceBranch_ne _ _ t
    | exact sliceBranch_ne rnd _ _ t
    | exact useBranch_ne rnd _ _ t
    | simp

lemma actBody_frame (P : Priors) (rnd : Nat) (s : PolicyState) :
    ((actBody P rnd s).state.subgoals = s.subgoals) ∧
    ((actBody P rnd s).state.max_steps = s.max_steps) ∧
    ((actBody P rnd s).state.steps = s.steps) ∧
    ((actBody P rnd s).state.receptacles = s.receptacles) ∧
    ((actBody P rnd s).state.visible_objects = s.visible_objects) ∧
    ((actBody P rnd s).state.obj_cls_to_receptacle_map = s.obj_cls_to_receptacle_map) := by
  unfold actBody
  repeat' split
  all_goals first
    | (obtain ⟨h1, h2, h3, h4, h5, h6, h7, h8⟩ := findSearch_frame P s _; exact ⟨h1, h2, h3, h4, h5, h6⟩)
    | (exact ⟨(dispatchRest_frame P rnd _).1, (dispatchRest_frame P rnd _).2.1,
        (dispatchRest_frame P rnd _).2.2.1, (dispatchRest_frame P rnd _).2.2.2.1,
        (dispatchRest_frame P rnd _).2.2.2.2.1, (dispatchRest_frame P rnd _).2.2.2.2.2.1⟩)
    | simp [ActResult.state]

lemma actBody_ne (P : Priors) (rnd : Nat) (s : PolicyState) (t : PolicyState) :
    actBody P rnd s ≠ .timeout t ∧ actBody P rnd s ≠ .failed t := by
  unfold actBody
  repeat' split
  all_goals first
    | exact ⟨(findSearch_ne P _ _ t).1, (findSearch_ne P _ _ t).2.1⟩
    | exact dispatchRest_ne P rnd _ t
    | simp

lemma ingest_frame (s : PolicyState) (obs : String) :
    ((ingest s obs).subgoals = s.subgoals) ∧
    ((ingest s obs).max_steps = s.max_steps) ∧
    ((ingest s obs).steps = s.steps) ∧
    ((ingest s obs).subgoal_idx = s.subgoal_idx) ∧
    ((ingest s obs).curr_recep = s.curr_recep) ∧
    ((ingest s obs).checked_inside_curr_recep = s.checked_inside_curr_recep) ∧
    ((ingest s obs).receptacles_to_check = s.receptacles_to_check) ∧
    ((ingest s obs).inventory = s.inventory) ∧
    ((ingest s obs).action_backlog = s.action_backlog) := by
  unfold ingest
  split
  all_goals simp

end HandCoded

namespace HandCoded

/-- C2: every call first increments the step counter; a call made once the
budget is spent (`max_steps ≤ steps`, i.e. the call numbered
`max_steps + 1` and beyond) raises `Timeout` before any other processing,
leaving every other field untouched, and no call within the budget ever
raises `Timeout`, regardless of plan content or observation. -/
theorem C2_timeout_threshold (P : Priors) (rnd : Nat) (s : PolicyState) (obs : String) :
    (s.max_steps ≤ s.steps →
      act P rnd s obs = .timeout { s with steps := s.steps + 1 }) ∧
    (s.steps < s.max_steps → ∀ t, act P rnd s obs ≠ .timeout t) ∧
    (act P rnd s obs).state.steps = s.steps + 1 := by
  refine ⟨?_, ?_, ?_⟩
  · intro h
    unfold act
    rw [if_pos]
    simp
    omega
  · intro h t hEq
    unfold act at hEq
    rw [if_neg (by simp; omega)] at hEq
    split at hEq
    · split at hEq
      · simp at hEq
      · simp at hEq
    · exact (actBody_ne P rnd _ t).1 hEq
  · unfold act
    dsimp only
    split
    · simp [ActResult.state]
    · split
      · split
        · simp [ActResult.state]
        · simp [ActResult.state]
      · rw [(actBody_frame P rnd _).2.2.1, (ingest_frame _ obs).2.2.1]

/-- C2 witness: a policy with budget 5 that has made 5 steps times out on
its 6th call. -/
theorem C2_timeout_threshold_witness :
    act samplePriors 0 wTimeout "look" = .timeout { wTimeout with steps := wTimeout.steps + 1 } :=
  (C2_timeout_threshold samplePriors 0 wTimeout "look").1 (by decide)

/-- C3: once `subgoal_idx` has reached the end of the plan and the budget
is not yet exceeded, a call returns the last entry of the deferred-action
queue when that queue is non-empty, and raises `PlanExhausted`
(`HandCodedAgentFailed`) when it is empty; `PlanExhausted` is a distinct
result kind from `Timeout` and is never a returned command. -/
theorem C3_plan_exhausted (P : Priors) (rnd : Nat) (s : PolicyState) (obs : String)
    (hsteps : s.steps < s.max_steps) (hidx : s.subgoals.length ≤ s.subgoal_idx) :
    (∀ c, s.action_backlog.getLast? = some c →
      act P rnd s obs =
        .cmd c { s with steps := s.steps + 1, action_backlog := s.action_backlog.dropLast }) ∧
    (s.action_backlog = [] → act P rnd s obs = .failed { s with steps := s.steps + 1 }) ∧
    (∀ t u, (ActResult.failed t : ActResult) ≠ .timeout u) ∧
    (∀ c t u, (ActResult.failed t : ActResult) ≠ .cmd c u) := by
  refine ⟨?_, ?_, by simp, by simp⟩
  · intro c hc
    unfold act
    dsimp only
    rw [if_neg (by omega), if_pos hidx, hc]
  · intro hb
    unfold act
    dsimp only
    rw [if_neg (by omega), if_pos hidx]
    simp [hb]

/-- C3 witness: an exhausted plan with one queued close returns that close. -/
theorem C3_plan_exhausted_witness :
    act samplePriors 0 wExhausted "look around" =
      .cmd "close cabinet_1"
        { wExhausted with
          steps := wExhausted.steps + 1
          action_backlog := wExhausted.action_backlog.dropLast } :=
  (C3_plan_exhausted samplePriors 0 wExhausted "look around" (by decide) (by decide)).1
    "close cabinet_1" (by decide)

/-- C10: whenever a call raises `Timeout` or `PlanExhausted`, the only
state change made by that call is incrementing the step counter by one;
all other working-memory fields are unchanged and the observation is
never ingested. -/
theorem C10_failure_frame (P : Priors) (rnd : Nat) (s : PolicyState) (obs : String)
    (t : PolicyState)
    (h : act P rnd s obs = .timeout t ∨ act P rnd s obs = .failed t) :
    t.receptacles = s.receptacles ∧
    t.visible_objects = s.visible_objects ∧
    t.obj_cls_to_receptacle_map = s.obj_cls_to_receptacle_map ∧
    t.inventory = s.inventory ∧
    t.curr_recep = s.curr_recep ∧
    t.checked_inside_curr_recep = s.checked_inside_curr_recep ∧
    t.receptacles_to_check = s.receptacles_to_check ∧
    t.action_backlog = s.action_backlog ∧
    t.subgoal_idx = s.subgoal_idx ∧
    t.steps = s.steps + 1 := by
  unfold act at h
  dsimp only at h
  rcases h with h | h
  · split at h
    · cases h
      simp
    · split at h
      · split at h
        · simp at h
        · simp at h
      · exact absurd h (actBody_ne P rnd _ t).1
  · split at h
    · simp at h
    · split at h
      · split at h
        · simp at h
        · cases h
          simp
      · exact absurd h (actBody_ne P rnd _ t).2

/-- C10 witness: the frame condition instantiated at a concrete timed-out
call. -/
theorem C10_failure_frame_witness :
    ({ wTimeout with steps := wTimeout.steps + 1 } : PolicyState).receptacles = wTimeout.receptacles ∧
    ({ wTimeout with steps := wTimeout.steps + 1 } : PolicyState).visible_objects = wTimeout.visible_objects ∧
    ({ wTimeout with steps := wTimeout.steps + 1 } : PolicyState).obj_cls_to_receptacle_map = wTimeout.obj_cls_to_receptacle_map ∧
    ({ wTimeout with steps := wTimeout.steps + 1 } : PolicyState).inventory = wTimeout.inventory ∧
    ({ wTimeout with steps := wTimeout.steps + 1 } : PolicyState).curr_recep = wTimeout.curr_recep ∧
    ({ wTimeout with steps := wTimeout.steps + 1 } : PolicyState).checked_inside_curr_recep = wTimeout.checked_inside_curr_recep ∧
    ({ wTimeout with steps := wTimeout.steps + 1 } : PolicyState).receptacles_to_check = wTimeout.receptacles_to_check ∧
    ({ wTimeout with steps := wTimeout.steps + 1 } : PolicyState).action_backlog = wTimeout.action_backlog ∧
    ({ wTimeout with steps := wTimeout.steps + 1 } : PolicyState).subgoal_idx = wTimeout.subgoal_idx ∧
    ({ wTimeout with steps := wTimeout.steps + 1 } : PolicyState).steps = wTimeout.steps + 1 :=
  C10_failure_frame samplePriors 0 wTimeout "look" { wTimeout with steps := wTimeout.steps + 1 }
    (Or.inl (by decide))

end HandCoded

namespace HandCoded

/-- C4: when the active subgoal is `find(cls)` and, after ingesting the
observation, some visible object has class `cls`, the call clears the
search frontier and the deferred-action queue, advances `subgoal_idx`,
and evaluates the next subgoal within the same call; in the spec's
concrete scenario (agent at `countertop_1`, active `find(apple)`,
observation `"You see apple_3 on countertop_1."`), the cursor advances
twice (through `find` into `take`) and the call returns
`"take apple_3 from countertop_1"` with frontier and queue empty. -/
theorem C4_find_completion (P : Priors) (rnd : Nat) (s : PolicyState) (obs : String)
    (cls : String)
    (hsteps : s.steps < s.max_steps)
    (hsg : s.subgoals.get? s.subgoal_idx = some ⟨"find", cls⟩)
    (hvis : objsOfCls cls (ingest { s with steps := s.steps + 1 } obs).visible_objects ≠ []) :
    (act P rnd s obs =
      dispatchRest P rnd
        { ingest { s with steps := s.steps + 1 } obs with
          receptacles_to_check := []
          action_backlog := []
          subgoal_idx := s.subgoal_idx + 1 }) ∧
    (act samplePriors 0 sScenario "You see apple_3 on countertop_1.").command =
      some "take apple_3 from countertop_1" ∧
    (act samplePriors 0 sScenario "You see apple_3 on countertop_1.").state.subgoal_idx = 2 ∧
    (act samplePriors 0 sScenario "You see apple_3 on countertop_1.").state.receptacles_to_check
      = [] ∧
    (act samplePriors 0 sScenario "You see apple_3 on countertop_1.").state.action_backlog
      = [] := by
  refine ⟨?_, by decide, by decide, by decide, by decide⟩
  have hlt : s.subgoal_idx < s.subgoals.length := List.get?_eq_some.mp hsg |>.1
  unfold act
  dsimp only
  rw [if_neg (by omega), if_neg (by omega)]
  unfold actBody
  have h1 : (ingest { s with steps := s.steps + 1 } obs).subgoals.get?
      (ingest { s with steps := s.steps + 1 } obs).subgoal_idx = some ⟨"find", cls⟩ := by
    rw [(ingest_frame _ _).1, (ingest_frame _ _).2.2.2.1]
    exact hsg
  rw [h1]
  simp only [↓reduceIte]
  rw [if_neg (by simpa [List.isEmpty_iff] using hvis)]
  rw [(ingest_frame { s with steps := s.steps + 1 } obs).2.2.2.1]

/-- C4 witness: the general find-completion equation instantiated at the
spec's concrete scenario. -/
theorem C4_find_completion_witness :
    act samplePriors 0 sScenario "You see apple_3 on countertop_1." =
      dispatchRest samplePriors 0
        { ingest { sScenario with steps := sScenario.steps + 1 }
            "You see apple_3 on countertop_1." with
          receptacles_to_check := []
          action_backlog := []
          subgoal_idx := sScenario.subgoal_idx + 1 } :=
  (C4_find_completion samplePriors 0 sScenario "You see apple_3 on countertop_1." "apple"
    (by decide) (by decide) (by decide)).1

/-- C5: when a `find(cls)` subgoal is not complete, the next receptacle
to visit is resolved with this precedence: (a) if the class-location
memory contains `cls`, the frontier becomes exactly that remembered
receptacle; (b) otherwise, if the frontier is empty, it becomes all known
receptacles of class `cls` when `cls` names a receptacle class, else all
known receptacles whose class is a container for `cls` per the affordance
priors; (c) if the computed list is still empty, the frontier becomes
every known receptacle; with a non-empty frontier and no memory entry the
frontier is left as it is. -/
theorem C5_frontier_precedence (P : Priors) (rnd : Nat) (s : PolicyState) (obs : String)
    (cls : String)
    (hsteps : s.steps < s.max_steps)
    (hsg : s.subgoals.get? s.subgoal_idx = some ⟨"find", cls⟩)
    (hvis : objsOfCls cls (ingest { s with steps := s.steps + 1 } obs).visible_objects = []) :
    (∀ r, dictGet? (ingest { s with steps := s.steps + 1 } obs).obj_cls_to_receptacle_map cls
        = some r →
      act P rnd s obs = continueFind P
        { ingest { s with steps := s.steps + 1 } obs with receptacles_to_check := [r] }) ∧
    (dictGet? (ingest { s with steps := s.steps + 1 } obs).obj_cls_to_receptacle_map cls
        = none →
      (ingest { s with steps := s.steps + 1 } obs).receptacles_to_check = [] →
      cls ∈ P.RECEPTACLES →
      act P rnd s obs = continueFind P
        { ingest { s with steps := s.steps + 1 } obs with
          receptacles_to_check :=
            if recepsOfType (ingest { s with steps := s.steps + 1 } obs) cls = [] then
              (ingest { s with steps := s.steps + 1 } obs).receptacles.map (fun p => p.1)
            else recepsOfType (ingest { s with steps := s.steps + 1 } obs) cls }) ∧
    (dictGet? (ingest { s with steps := s.steps + 1 } obs).obj_cls_to_receptacle_map cls
        = none →
      (ingest { s with steps := s.steps + 1 } obs).receptacles_to_check = [] →
      cls ∉ P.RECEPTACLES →
      ∀ rs, dictGetL? P.OBJECT_TO_VAL_RECEPTACLE cls = some rs →
      act P rnd s obs = continueFind P
        { ingest { s with steps := s.steps + 1 } obs with
          receptacles_to_check :=
            if recepsHolding (ingest { s with steps := s.steps + 1 } obs) rs = [] then
              (ingest { s with steps := s.steps + 1 } obs).receptacles.map (fun p => p.1)
            else recepsHolding (ingest { s with steps := s.steps + 1 } obs) rs }) ∧
    (dictGet? (ingest { s with steps := s.steps + 1 } obs).obj_cls_to_receptacle_map cls
        = none →
      (ingest { s with steps := s.steps + 1 } obs).receptacles_to_check ≠ [] →
      act P rnd s obs = continueFind P (ingest { s with steps := s.steps + 1 } obs)) := by
  have hlt : s.subgoal_idx < s.subgoals.length := List.get?_eq_some.mp hsg |>.1
  have hact : act P rnd s obs =
      findSearch P (ingest { s with steps := s.steps + 1 } obs) cls := by
    unfold act
    dsimp only
    rw [if_neg (by omega), if_neg (by omega)]
    unfold actBody
    have h1 : (ingest { s with steps := s.steps + 1 } obs).subgoals.get?
        (ingest { s with steps := s.steps + 1 } obs).subgoal_idx = some ⟨"find", cls⟩ := by
      rw [(ingest_frame _ _).1, (ingest_frame _ _).2.2.2.1]
      exact hsg
    rw [h1]
    simp only [↓reduceIte]
    rw [if_pos (by simpa [List.isEmpty_iff] using hvis)]
  refine ⟨?_, ?_, ?_, ?_⟩
  · intro r hr
    rw [hact]
    unfold findSearch
    rw [hr]
  · intro h0 hrtc hrec
    rw [hact]
    unfold findSearch
    rw [h0]
    dsimp only
    rw [if_pos (by simpa [List.isEmpty_iff] using hrtc), if_pos hrec]
    simp only [List.isEmpty_iff]
  · intro h0 hrtc hrec rs hrs
    rw [hact]
    unfold findSearch
    rw [h0]
    dsimp only
    rw [if_pos (by simpa [List.isEmpty_iff] using hrtc), if_neg hrec, hrs]
    simp only [List.isEmpty_iff]
  · intro h0 hne
    rw [hact]
    unfold findSearch
    rw [h0]
    dsimp only
    rw [if_neg (by simpa [List.isEmpty_iff] using hne)]

/-- C5 witness: the sticky-memory branch instantiated at a policy that
remembers apples at `fridge_1`. -/
theorem C5_frontier_precedence_witness :
    act samplePriors 0 wSticky "nothing to see" =
      continueFind samplePriors
        { ingest { wSticky with steps := wSticky.steps + 1 } "nothing to see" with
          receptacles_to_check := ["fridge_1"] } :=
  (C5_frontier_precedence samplePriors 0 wSticky "nothing to see" "apple"
    (by decide) (by decide) (by decide)).1 "fridge_1" (by decide)

/-- C8 counterexample: the plan compiled for `pick_and_place_simple`
(targets `apple` / `countertop`) is exactly find/take/find/put; it does
not begin with a `look` pseudo-subgoal, and contains no `look` subgoal at
all. -/
theorem C8_counterexample :
    pickAndPlaceSimpleSubgoals "apple" "countertop" =
      [⟨"find", "apple"⟩, ⟨"take", "apple"⟩, ⟨"find", "countertop"⟩, ⟨"put", "countertop"⟩] ∧
    (pickAndPlaceSimpleSubgoals "apple" "countertop").head? = some ⟨"find", "apple"⟩ ∧
    (⟨"look", ""⟩ : Subgoal) ∉ pickAndPlaceSimpleSubgoals "apple" "countertop" := by
  decide

/-- C8 amended: only `BasePolicy.__init__` installs the `[look]` plan;
every task policy replaces the whole list, so the compiled
`pick_and_place_simple` plan is exactly find/take/find/put with no `look`
subgoal; moreover `look` matches no dispatch branch, so a fresh base
policy's first call (on the introductory observation) returns Python
`None` without advancing the cursor, rather than consuming a `look`
subgoal. -/
theorem C8_plan_head_amended :
    baseSubgoals = [⟨"look", ""⟩] ∧
    (∀ ot pt : String,
      pickAndPlaceSimpleSubgoals ot pt =
        [⟨"find", ot⟩, ⟨"take", ot⟩, ⟨"find", pt⟩, ⟨"put", pt⟩] ∧
      (⟨"look", ""⟩ : Subgoal) ∉ pickAndPlaceSimpleSubgoals ot pt) ∧
    act samplePriors 0 (initState baseSubgoals 100) "Welcome fridge_1" =
      .noneResult
        { initState baseSubgoals 100 with
          steps := 1
          receptacles := [("fridge_1", "fridge")] } ∧
    (act samplePriors 0 (initState baseSubgoals 100) "Welcome fridge_1").state.subgoal_idx
      = 0 := by
  refine ⟨rfl, ?_, by decide, by decide⟩
  intro ot pt
  constructor
  · rfl
  · simp [pickAndPlaceSimpleSubgoals]

end HandCoded

namespace HandCoded

lemma dictInsert_inv (f : String → String) (d : List (String × String)) (k : String)
    (hd : ∀ p ∈ d, p.2 = f p.1) :
    ∀ p ∈ dictInsert d k (f k), p.2 = f p.1 := by
  intro p hp
  unfold dictInsert at hp
  split at hp
  · obtain ⟨q, hq, hqe⟩ := List.mem_map.mp hp
    by_cases h : q.1 = k
    · simp only [h, if_pos rfl] at hqe
      subst hqe
      rfl
    · simp only [if_neg h] at hqe
      subst hqe
      exact hd q hq
  · rcases List.mem_append.mp hp with h | h
    · exact hd p h
    · simp at h
      subst h
      rfl

lemma mem_dictInsert (f : String → String) (d : List (String × String)) (k a b : String)
    (hd : ∀ p ∈ d, p.2 = f p.1) :
    (a, b) ∈ dictInsert d k (f k) ↔ ((a, b) ∈ d ∨ (a = k ∧ b = f k)) := by
  unfold dictInsert
  split
  · constructor
    · intro hp
      obtain ⟨q, hq, hqe⟩ := List.mem_map.mp hp
      by_cases h : q.1 = k
      · simp only [h, if_pos rfl] at hqe
        right
        exact ⟨congrArg Prod.fst hqe.symm, congrArg Prod.snd hqe.symm⟩
      · simp only [if_neg h] at hqe
        left
        rwa [hqe] at hq
    · intro h
      rcases h with h | ⟨h1, h2⟩
      · refine List.mem_map.mpr ⟨(a, b), h, ?_⟩
        by_cases hak : a = k
        · have : b = f a := hd (a, b) h
          simp [hak, this]
        · simp [hak]
      · subst h1
        subst h2
        rename_i hany
        obtain ⟨q, hq, hqk⟩ := List.any_eq_true.mp hany
        simp only [decide_eq_true_eq] at hqk
        refine List.mem_map.mpr ⟨q, hq, ?_⟩
        simp [hqk]
  · simp

lemma mem_foldl_dictInsert (f : String → String) (l : List String) :
    ∀ d, (∀ p ∈ d, p.2 = f p.1) → ∀ a b,
      ((a, b) ∈ l.foldl (fun d o => dictInsert d o (f o)) d ↔
        ((a, b) ∈ d ∨ (a ∈ l ∧ b = f a))) := by
  induction l with
  | nil => intro d hd a b; simp
  | cons o l ih =>
    intro d hd a b
    rw [List.foldl_cons]
    rw [ih (dictInsert d o (f o)) (dictInsert_inv f d o hd) a b]
    rw [mem_dictInsert f d o a b hd]
    constructor
    · rintro ((h | ⟨h1, h2⟩) | ⟨h1, h2⟩)
      · exact Or.inl h
      · exact Or.inr ⟨by simp [h1], by rw [h2, h1]⟩
      · exact Or.inr ⟨by simp [h1], h2⟩
    · rintro (h | ⟨h1, h2⟩)
      · exact Or.inl (Or.inl h)
      · rcases List.mem_cons.mp h1 with h | h
        · exact Or.inl (Or.inr ⟨h, by rw [h2, h]⟩)
        · exact Or.inr ⟨h, h2⟩

lemma takeWhile_append_left (p : Char → Bool) (a b : List Char)
    (h : ∃ c ∈ a, p c = false) :
    (a ++ b).takeWhile p = a.takeWhile p := by
  induction a with
  | nil => simp at h
  | cons c a ih =>
    by_cases hc : p c
    · simp only [List.cons_append, List.takeWhile_cons, hc, if_pos]
      obtain ⟨x, hx, hpx⟩ := h
      rcases List.mem_cons.mp hx with rfl | hx
      · rw [hc] at hpx; cases hpx
      · rw [ih ⟨x, hx, hpx⟩]
    · simp only [Bool.not_eq_true] at hc
      simp [List.takeWhile_cons, hc]

/-- `rstripPunct` keeps a prefix of the token and drops only trailing
`'.'` / `','`, so it preserves the part before the first `'_'`. -/
lemma clsOfMention_rstrip (t : List Char) (h : t.contains '_' = true) :
    clsOfMention (String.mk (rstripPunct t)) =
      String.mk (t.takeWhile (fun c => ¬ c = '_')) := by
  unfold clsOfMention
  have hdec : t = rstripPunct t ++ (t.reverse.takeWhile (fun c => c = '.' ∨ c = ',')).reverse := by
    unfold rstripPunct
    conv_lhs => rw [← List.reverse_reverse t, ← List.takeWhile_append_dropWhile
      (p := fun c => decide (c = '.' ∨ c = ',')) (l := t.reverse)]
    rw [List.reverse_append]
  have hmem : '_' ∈ rstripPunct t := by
    have ht : '_' ∈ t := by simpa using h
    rw [hdec] at ht
    rcases List.mem_append.mp ht with h1 | h1
    · exact h1
    · exfalso
      have := List.mem_takeWhile_imp (List.mem_reverse.mp h1)
      simp at this
  have : t.takeWhile (fun c => ¬ c = '_') = (rstripPunct t).takeWhile (fun c => ¬ c = '_') := by
    conv_lhs => rw [hdec]
    exact takeWhile_append_left _ _ _ ⟨'_', hmem, by simp⟩
  simp only [decide_not] at this ⊢
  exact congrArg String.mk this.symm

/-- C7: the perception extractor returns exactly the mapping whose keys
are the whitespace-delimited tokens containing the separator `'_'` with
trailing punctuation (`'.'` / `','`) stripped, each mapped to the
substring of the token preceding the first separator occurrence; it is a
pure function and returns the empty mapping (not an error) when no token
contains the separator. -/
theorem C7_perception_extractor (obs : String) :
    (∀ k v, (k, v) ∈ get_objects_and_classes obs ↔
      ((∃ t ∈ tokenize obs, t.contains '_' = true ∧ k = String.mk (rstripPunct t)) ∧
        v = clsOfMention k)) ∧
    (∀ t : List Char, t.contains '_' = true →
      clsOfMention (String.mk (rstripPunct t)) =
        String.mk (t.takeWhile (fun c => ¬ c = '_'))) ∧
    ((∀ t ∈ tokenize obs, t.contains '_' = false) → get_objects_and_classes obs = []) := by
  refine ⟨?_, clsOfMention_rstrip, ?_⟩
  · intro k v
    unfold get_objects_and_classes
    rw [mem_foldl_dictInsert clsOfMention (get_hashed_objects_in_str obs) [] (by simp) k v]
    simp only [List.not_mem_nil, false_or]
    unfold get_hashed_objects_in_str
    simp only [List.mem_map, List.mem_filter]
    constructor
    · rintro ⟨⟨t, ⟨ht, hc⟩, he⟩, hv⟩
      exact ⟨⟨t, ht, hc, he.symm⟩, hv⟩
    · rintro ⟨⟨t, ht, hc, he⟩, hv⟩
      exact ⟨⟨t, ⟨ht, hc⟩, he.symm⟩, hv⟩
  · intro h
    unfold get_objects_and_classes get_hashed_objects_in_str
    have : (tokenize obs).filter (fun t => t.contains '_') = [] := by
      rw [List.filter_eq_nil_iff]
      intro t ht
      simpa using h t ht
    rw [this]
    simp

/-- C7 witness: the characterization instantiated on a tagged observation
and on a pure narration line. -/
theorem C7_perception_extractor_witness :
    ("apple_3", "apple") ∈ get_objects_and_classes "You see apple_3 on countertop_1." ∧
    get_objects_and_classes "A pure narration line." = [] :=
  ⟨((C7_perception_extractor "You see apple_3 on countertop_1.").1 "apple_3" "apple").mpr
      ⟨⟨"apple_3".data, by decide, by decide, by decide⟩, by decide⟩,
    (C7_perception_extractor "A pure narration line.").2.2 (by decide)⟩

end HandCoded

namespace HandCoded

lemma mem_of_getLast?_eq_some {l : List String} {r : String}
    (h : l.getLast? = some r) : r ∈ l := by
  obtain ⟨hne, heq⟩ := List.mem_getLast?_eq_getLast (Option.mem_def.mpr h)
  rw [heq]
  exact List.getLast_mem hne

lemma dictGet?_mem {d : List (String × String)} {k v : String}
    (h : dictGet? d k = some v) : ∃ p ∈ d, p.2 = v := by
  unfold dictGet? at h
  match hf : d.find? (fun p => p.1 = k) with
  | none => rw [hf] at h; simp at h
  | some p =>
    rw [hf] at h
    simp at h
    exact ⟨p, List.mem_of_find?_eq_some hf, h⟩

lemma dictInsert_vals (Q : String → Prop) (d : List (String × String)) (k v : String)
    (hd : ∀ p ∈ d, Q p.2) (hv : Q v) : ∀ p ∈ dictInsert d k v, Q p.2 := by
  intro p hp
  unfold dictInsert at hp
  split at hp
  · obtain ⟨q, hq, hqe⟩ := List.mem_map.mp hp
    by_cases h : q.1 = k
    · simp only [h, if_pos rfl] at hqe
      rw [← hqe]
      exact hv
    · simp only [if_neg h] at hqe
      rw [← hqe]
      exact hd q hq
  · rcases List.mem_append.mp hp with h | h
    · exact hd p h
    · simp at h
      rw [h]
      exact hv

lemma foldl_dictInsert_vals (Q : String → Prop) (v : String)
    (l : List (String × String)) :
    ∀ d, (∀ p ∈ d, Q p.2) → Q v →
      ∀ p ∈ l.foldl (fun m q => dictInsert m q.2 v) d, Q p.2 := by
  induction l with
  | nil => intro d hd _ p hp; exact hd p hp
  | cons q l ih =>
    intro d hd hv p hp
    rw [List.foldl_cons] at hp
    exact ih (dictInsert d q.2 v) (dictInsert_vals Q d q.2 v hd hv) hv p hp

lemma ingest_meminv {s : PolicyState} (obs : String) (h : MemInv s)
    (hW : hasWelcome obs = false) : MemInv (ingest s obs) := by
  obtain ⟨hm, hf, hc⟩ := h
  unfold ingest
  rw [hW]
  simp only [Bool.false_eq_true, if_false]
  exact ⟨foldl_dictInsert_vals (MentionOK s.receptacles) s.curr_recep
      (get_objects_and_classes obs) s.obj_cls_to_receptacle_map hm hc, hf, hc⟩

lemma continueFind_meminv {P : Priors} {s : PolicyState} (h : MemInv s) :
    MemInv (continueFind P s).state := by
  obtain ⟨hm, hf, hc⟩ := h
  unfold continueFind
  repeat' split
  all_goals simp only [ActResult.state]
  all_goals refine ⟨fun p hp => ?_, fun x hx => ?_, ?_⟩
  all_goals first
    | exact hm p hp
    | exact hf x hx
    | exact hc
    | exact hf x (List.mem_of_mem_dropLast hx)
    | exact hf _ (mem_of_getLast?_eq_some (by assumption))


lemma recepsOfType_mentionOK (s : PolicyState) (cls : String) :
    ∀ x ∈ recepsOfType s cls, MentionOK s.receptacles x := by
  intro x hx
  right
  unfold recepsOfType at hx
  obtain ⟨p, hp, he⟩ := List.mem_map.mp hx
  exact List.mem_map.mpr ⟨p, (List.mem_filter.mp hp).1, he⟩

lemma recepsHolding_mentionOK (s : PolicyState) (rs : List String) :
    ∀ x ∈ recepsHolding s rs, MentionOK s.receptacles x := by
  intro x hx
  right
  unfold recepsHolding at hx
  obtain ⟨p, hp, he⟩ := List.mem_map.mp hx
  exact List.mem_map.mpr ⟨p, (List.mem_filter.mp hp).1, he⟩

lemma findSearch_meminv {P : Priors} {s : PolicyState} (param : String) (h : MemInv s) :
    MemInv (findSearch P s param).state := by
  obtain ⟨hm, hf, hc⟩ := h
  unfold findSearch
  repeat' split
  all_goals first
    | exact ⟨hm, hf, hc⟩
    | (apply continueFind_meminv
       refine ⟨hm, fun x hx => ?_, hc⟩
       first
         | exact hf x hx
         | (simp only [List.mem_singleton] at hx
            subst hx
            obtain ⟨p, hp, hpv⟩ := dictGet?_mem (by assumption)
            rw [← hpv]
            exact hm p hp)
         | (revert hx
            split <;> intro hx
            · exact Or.inr hx
            · first
                | exact recepsOfType_mentionOK s param x hx
                | exact recepsHolding_mentionOK s _ x hx))

lemma gotoBranch_meminv {s : PolicyState} (sg : Subgoal) (h : MemInv s) :
    MemInv (gotoBranch s sg).state := by
  obtain ⟨hm, hf, hc⟩ := h
  unfold gotoBranch
  split
  · exact ⟨hm, hf, hc⟩
  · simp only [ActResult.state]
    refine ⟨hm, hf, ?_⟩
    exact recepsOfType_mentionOK s sg.param _
      (List.mem_of_mem_head? (Option.mem_def.mpr (by assumption)))

lemma takeBranch_meminv {P : Priors} {rnd : Nat} {s : PolicyState} (sg : Subgoal)
    (h : MemInv s) : MemInv (takeBranch P rnd s sg).state := by
  obtain ⟨hm, hf, hc⟩ := h
  unfold takeBranch
  repeat' split
  all_goals exact ⟨hm, hf, hc⟩

lemma putBranch_meminv {P : Priors} {s : PolicyState} (h : MemInv s) :
    MemInv (putBranch P s).state := by
  obtain ⟨hm, hf, hc⟩ := h
  unfold putBranch
  repeat' split
  all_goals exact ⟨hm, hf, hc⟩

lemma applianceBranch_meminv {verb : String} {s : PolicyState} (h : MemInv s) :
    MemInv (applianceBranch verb s).state := by
  obtain ⟨hm, hf, hc⟩ := h
  unfold applianceBranch
  repeat' split
  all_goals exact ⟨hm, hf, hc⟩

lemma sliceBranch_meminv {rnd : Nat} {s : PolicyState} (sg : Subgoal) (h : MemInv s) :
    MemInv (sliceBranch rnd s sg).state := by
  obtain ⟨hm, hf, hc⟩ := h
  unfold sliceBranch
  repeat' split
  all_goals exact ⟨hm, hf, hc⟩

lemma useBranch_meminv {rnd : Nat} {s : PolicyState} (sg : Subgoal) (h : MemInv s) :
    MemInv (useBranch rnd s sg).state := by
  obtain ⟨hm, hf, hc⟩ := h
  unfold useBranch
  repeat' split
  all_goals exact ⟨hm, hf, hc⟩

lemma dispatchRest_meminv {P : Priors} {rnd : Nat} {s : PolicyState} (h : MemInv s) :
    MemInv (dispatchRest P rnd s).state := by
  unfold dispatchRest
  repeat' split
  all_goals first
    | exact h
    | exact gotoBranch_meminv _ h
    | exact takeBranch_meminv _ h
    | exact putBranch_meminv h
    | exact applianceBranch_meminv h
    | exact sliceBranch_meminv _ h
    | exact useBranch_meminv _ h

lemma actBody_meminv {P : Priors} {rnd : Nat} {s : PolicyState} (h : MemInv s) :
    MemInv (actBody P rnd s).state := by
  unfold actBody
  repeat' split
  all_goals first
    | exact h
    | exact findSearch_meminv _ h
    | exact dispatchRest_meminv h
    | exact dispatchRest_meminv ⟨h.1, by simp, h.2.2⟩

lemma act_meminv (P : Priors) (rnd : Nat) (obs : String) {s : PolicyState}
    (h : MemInv s) (hW : hasWelcome obs = false) : MemInv ((act P rnd s obs).state) := by
  unfold act
  dsimp only
  repeat' split
  all_goals simp only [ActResult.state]
  all_goals first
    | exact h
    | exact ⟨h.1, h.2.1, h.2.2⟩
    | exact actBody_meminv (ingest_meminv obs ⟨h.1, h.2.1, h.2.2⟩ hW)

lemma ingest_meminv_start {s : PolicyState} (obs : String)
    (hmap : s.obj_cls_to_receptacle_map = []) (hrtc : s.receptacles_to_check = [])
    (hcur : s.curr_recep = "") : MemInv (ingest s obs) := by
  unfold ingest
  split
  · exact ⟨by rw [hmap]; simp, by rw [hrtc]; simp, Or.inl hcur⟩
  · refine ⟨?_, by rw [hrtc]; simp, Or.inl hcur⟩
    apply foldl_dictInsert_vals
    · rw [hmap]; simp
    · exact Or.inl hcur

lemma act_meminv_start (P : Priors) (rnd : Nat) (obs : String) {s : PolicyState}
    (hmap : s.obj_cls_to_receptacle_map = []) (hrtc : s.receptacles_to_check = [])
    (hcur : s.curr_recep = "") : MemInv ((act P rnd s obs).state) := by
  unfold act
  dsimp only
  repeat' split
  all_goals simp only [ActResult.state]
  all_goals first
    | exact ⟨by rw [hmap]; simp, by rw [hrtc]; simp, Or.inl hcur⟩
    | exact actBody_meminv (ingest_meminv_start obs hmap hrtc hcur)

lemma runF_meminv (P : Priors) (inputs : List (Nat × String)) :
    ∀ t, MemInv t → (∀ i ∈ inputs, hasWelcome i.2 = false) →
      MemInv (runF P t inputs) := by
  induction inputs with
  | nil => intro t ht _; exact ht
  | cons i rest ih =>
    intro t ht hW
    simp only [runF, List.foldl_cons]
    exact ih ((act P i.1 t i.2).state) (act_meminv P i.1 i.2 ht (hW i (by simp)))
      (fun j hj => hW j (List.mem_cons_of_mem i hj))

/-- C9 counterexample: from a fresh pick-and-place policy, a single call
whose (non-introductory) observation mentions `mug_2` is a reachable
state in which `classLocationMemory` maps `mug` to the empty string,
which is not a key of the (empty) `receptacles` mapping — exactly the
"objects observed before the agent has positioned itself" case the claim
includes. -/
theorem C9_counterexample :
    Reachable samplePriors c9Run1.state ∧
    ("mug", "") ∈ c9Run1.state.obj_cls_to_receptacle_map ∧
    "" ∉ c9Run1.state.receptacles.map (fun p => p.1) := by
  refine ⟨?_, by decide, by decide⟩
  exact Reachable.step sFresh 0 "You see a mug_2."
    (Reachable.init (pickAndPlaceSimpleSubgoals "apple" "countertop") 100)

/-- C9 amended: in every state reached by a sequence of calls from a
fresh episode in which only the first observation may be the introductory
(`Welcome`) one, every receptacle mention stored as a value of
`classLocationMemory` or as an element of `searchFrontier` is a key of
the `receptacles` mapping or the empty string (the agent's initial
"nowhere" position, recorded when objects are observed before the agent
has positioned itself at any receptacle). -/
theorem C9_memory_keys_amended (P : Priors) (plan : List Subgoal) (ms : Nat)
    (inputs : List (Nat × String))
    (hW : ∀ i ∈ inputs.tail, hasWelcome i.2 = false) :
    (∀ p ∈ (runF P (initState plan ms) inputs).obj_cls_to_receptacle_map,
      MentionOK (runF P (initState plan ms) inputs).receptacles p.2) ∧
    (∀ r ∈ (runF P (initState plan ms) inputs).receptacles_to_check,
      MentionOK (runF P (initState plan ms) inputs).receptacles r) := by
  suffices h : MemInv (runF P (initState plan ms) inputs) from ⟨h.1, h.2.1⟩
  cases inputs with
  | nil =>
    simp only [runF, List.foldl_nil]
    exact ⟨by simp [initState], by simp [initState], Or.inl rfl⟩
  | cons i rest =>
    simp only [runF, List.foldl_cons]
    exact runF_meminv P rest ((act P i.1 (initState plan ms) i.2).state)
      (act_meminv_start P i.1 i.2 rfl rfl rfl) hW

/-- C9 witness: the amended invariant instantiated on the one-call run of
the counterexample. -/
theorem C9_memory_keys_amended_witness :
    (∀ p ∈ (runF samplePriors
        (initState (pickAndPlaceSimpleSubgoals "apple" "countertop") 100)
        [(0, "You see a mug_2.")]).obj_cls_to_receptacle_map,
      MentionOK (runF samplePriors
        (initState (pickAndPlaceSimpleSubgoals "apple" "countertop") 100)
        [(0, "You see a mug_2.")]).receptacles p.2) ∧
    (∀ r ∈ (runF samplePriors
        (initState (pickAndPlaceSimpleSubgoals "apple" "countertop") 100)
        [(0, "You see a mug_2.")]).receptacles_to_check,
      MentionOK (runF samplePriors
        (initState (pickAndPlaceSimpleSubgoals "apple" "countertop") 100)
        [(0, "You see a mug_2.")]).receptacles r) :=
  C9_memory_keys_amended samplePriors (pickAndPlaceSimpleSubgoals "apple" "countertop") 100
    [(0, "You see a mug_2.")] (by simp)

end HandCoded

namespace HandCoded

lemma is_receptacle_openable_congr {P : Priors} {t s : PolicyState}
    (h : t.receptacles = s.receptacles) (r : String) :
    is_receptacle_openable P t r = is_receptacle_openable P s r := by
  unfold is_receptacle_openable
  rw [h]

lemma continueFind_checked {P : Priors} {s : PolicyState}
    (hs : s.checked_inside_curr_recep = true) :
    (continueFind P s).state.checked_inside_curr_recep = true ∨
    (continueFind P s).command =
      some ("go to " ++ (continueFind P s).state.curr_recep) := by
  unfold continueFind
  repeat' split
  all_goals simp [ActResult.state, ActResult.command, hs]

lemma findSearch_checked {P : Priors} {s : PolicyState} (param : String)
    (hs : s.checked_inside_curr_recep = true) :
    (findSearch P s param).state.checked_inside_curr_recep = true ∨
    (findSearch P s param).command =
      some ("go to " ++ (findSearch P s param).state.curr_recep) := by
  unfold findSearch
  repeat' split
  all_goals first
    | exact continueFind_checked hs
    | simp [ActResult.state, hs]

lemma gotoBranch_checked {s : PolicyState} (sg : Subgoal)
    (hs : s.checked_inside_curr_recep = true) :
    (gotoBranch s sg).state.checked_inside_curr_recep = true := by
  unfold gotoBranch
  repeat' split
  all_goals simp [ActResult.state, hs]

lemma takeBranch_checked {P : Priors} {rnd : Nat} {s : PolicyState} (sg : Subgoal)
    (hs : s.checked_inside_curr_recep = true) :
    (takeBranch P rnd s sg).state.checked_inside_curr_recep = true := by
  unfold takeBranch
  repeat' split
  all_goals simp [ActResult.state, hs]

lemma putBranch_checked {P : Priors} {s : PolicyState}
    (hs : s.checked_inside_curr_recep = true) :
    (putBranch P s).state.checked_inside_curr_recep = true := by
  unfold putBranch
  repeat' split
  all_goals simp [ActResult.state, hs]

lemma applianceBranch_checked {verb : String} {s : PolicyState}
    (hs : s.checked_inside_curr_recep = true) :
    (applianceBranch verb s).state.checked_inside_curr_recep = true := by
  unfold applianceBranch
  repeat' split
  all_goals simp [ActResult.state, hs]

lemma sliceBranch_checked {rnd : Nat} {s : PolicyState} (sg : Subgoal)
    (hs : s.checked_inside_curr_recep = true) :
    (sliceBranch rnd s sg).state.checked_inside_curr_recep = true := by
  unfold sliceBranch
  repeat' split
  all_goals simp [ActResult.state, hs]

lemma useBranch_checked {rnd : Nat} {s : PolicyState} (sg : Subgoal)
    (hs : s.checked_inside_curr_recep = true) :
    (useBranch rnd s sg).state.checked_inside_curr_recep = true := by
  unfold useBranch
  repeat' split
  all_goals simp [ActResult.state, hs]

lemma dispatchRest_checked {P : Priors} {rnd : Nat} {s : PolicyState}
    (hs : s.checked_inside_curr_recep = true) :
    (dispatchRest P rnd s).state.checked_inside_curr_recep = true := by
  unfold dispatchRest
  repeat' split
  all_goals first
    | exact gotoBranch_checked _ hs
    | exact takeBranch_checked _ hs
    | exact putBranch_checked hs
    | exact applianceBranch_checked hs
    | exact sliceBranch_checked _ hs
    | exact useBranch_checked _ hs
    | simp [ActResult.state, hs]

lemma actBody_checked {P : Priors} {rnd : Nat} {s : PolicyState}
    (hs : s.checked_inside_curr_recep = true) :
    (actBody P rnd s).state.checked_inside_curr_recep = true ∨
    (actBody P rnd s).command =
      some ("go to " ++ (actBody P rnd s).state.curr_recep) := by
  unfold actBody
  repeat' split
  all_goals first
    | exact findSearch_checked _ hs
    | exact Or.inl (dispatchRest_checked hs)
    | simp [ActResult.state, hs]

lemma continueFind_open (P : Priors) (t : PolicyState)
    (hopn : is_receptacle_openable P t t.curr_recep = .ok true)
    (hchk : t.checked_inside_curr_recep = false) :
    continueFind P t =
      .cmd ("open " ++ t.curr_recep)
        { t with
          checked_inside_curr_recep := true
          action_backlog := t.action_backlog ++ ["close " ++ t.curr_recep] } := by
  unfold continueFind
  rw [hopn]
  dsimp only
  rw [if_pos (by simp [hchk])]

lemma takeBranch_open (P : Priors) (rnd : Nat) (t : PolicyState) (sg : Subgoal)
    (hopn : is_receptacle_openable P t t.curr_recep = .ok true)
    (hchk : t.checked_inside_curr_recep = false) :
    takeBranch P rnd t sg =
      .cmd ("open " ++ t.curr_recep)
        { t with
          action_backlog := t.action_backlog ++ ["close " ++ t.curr_recep]
          checked_inside_curr_recep := true } := by
  unfold takeBranch
  rw [hopn]
  dsimp only
  rw [if_pos (by simp [hchk])]

lemma putBranch_open (P : Priors) (t : PolicyState)
    (hopn : is_receptacle_openable P t t.curr_recep = .ok true)
    (hchk : t.checked_inside_curr_recep = false) :
    putBranch P t =
      .cmd ("open " ++ t.curr_recep)
        { t with
          action_backlog := t.action_backlog ++ ["close " ++ t.curr_recep]
          checked_inside_curr_recep := true } := by
  unfold putBranch
  rw [hopn]
  dsimp only
  rw [if_pos (by simp [hchk])]

lemma continueFind_open_rtc (P : Priors) (t : PolicyState) (l : List String)
    (hopn : is_receptacle_openable P t t.curr_recep = .ok true)
    (hchk : t.checked_inside_curr_recep = false) :
    continueFind P { t with receptacles_to_check := l } =
      .cmd ("open " ++ t.curr_recep)
        { t with
          receptacles_to_check := l
          checked_inside_curr_recep := true
          action_backlog := t.action_backlog ++ ["close " ++ t.curr_recep] } := by
  have hopn2 : is_receptacle_openable P { t with receptacles_to_check := l }
      ({ t with receptacles_to_check := l } : PolicyState).curr_recep = .ok true := by
    rw [is_receptacle_openable_congr
      (show ({ t with receptacles_to_check := l } : PolicyState).receptacles =
        t.receptacles from rfl)]
    exact hopn
  exact continueFind_open P _ hopn2 hchk

/-- An unmet `find` whose frontier resolution succeeds (by sticky memory,
by an already non-empty frontier, or by the class/affordance heuristics —
every case except the affordance `KeyError`, which aborts the call before
the gate) always reaches the opportunistic-open gate: with the current
receptacle openable and uninspected, the call returns its open command,
marks it inspected, and queues the matching close, whatever frontier the
resolution produced. -/
lemma findSearch_open (P : Priors) (t : PolicyState) (param : String)
    (hres : ¬ (dictGet? t.obj_cls_to_receptacle_map param = none ∧
      t.receptacles_to_check = [] ∧ param ∉ P.RECEPTACLES ∧
      dictGetL? P.OBJECT_TO_VAL_RECEPTACLE param = none))
    (hopn : is_receptacle_openable P t t.curr_recep = .ok true)
    (hchk : t.checked_inside_curr_recep = false) :
    ∃ rtc, findSearch P t param =
      .cmd ("open " ++ t.curr_recep)
        { t with
          receptacles_to_check := rtc
          checked_inside_curr_recep := true
          action_backlog := t.action_backlog ++ ["close " ++ t.curr_recep] } := by
  unfold findSearch
  split
  · exact ⟨_, continueFind_open_rtc P t _ hopn hchk⟩
  · split
    · split
      · exact ⟨_, continueFind_open_rtc P t _ hopn hchk⟩
      · split
        · exact absurd ⟨by assumption, List.isEmpty_iff.mp (by assumption),
            by assumption, by assumption⟩ hres
        · exact ⟨_, continueFind_open_rtc P t _ hopn hchk⟩
    · exact ⟨t.receptacles_to_check, continueFind_open P t hopn hchk⟩

/-- C6 counterexample: two distinct refutations of the original claim.
First, with the agent at a closed `cabinet_1` and `find(apple)` active,
the first call returns `"open cabinet_1"` and queues
`"close cabinet_1"`; but when the next observation reveals the apple,
the `find` completion empties `deferredActions` and the same call
advances the plan through `take` (cursor 0 to 2), returning the take
command — so the queued close is discarded and never returned even
though plan progress continued past the opened receptacle.  Second, a
searching policy already at `fridge_1` with `checkedInsideCurrent` true
pops `fridge_1` itself off the frontier: the call returns
`"go to fridge_1"` and resets `checkedInsideCurrent` to false although
the agent never moved to another receptacle, refuting the claim's
"remains true until the agent moves to another receptacle" conjunct. -/
theorem C6_counterexample :
    act samplePriors 0 sCab "Nothing here" = .cmd "open cabinet_1" sCabOpened ∧
    sCabOpened.action_backlog = ["close cabinet_1"] ∧
    (act samplePriors 0 sCabOpened "You see apple_1.").command =
      some "take apple_1 from cabinet_1" ∧
    (act samplePriors 0 sCabOpened "You see apple_1.").state.action_backlog = [] ∧
    (act samplePriors 0 sCabOpened "You see apple_1.").state.subgoal_idx = 2 ∧
    wSticky.checked_inside_curr_recep = true ∧
    wSticky.curr_recep = "fridge_1" ∧
    (act samplePriors 0 wSticky "nothing to see").command = some "go to fridge_1" ∧
    (act samplePriors 0 wSticky "nothing to see").state.curr_recep = "fridge_1" ∧
    (act samplePriors 0 wSticky "nothing to see").state.checked_inside_curr_recep
      = false := by
  refine ⟨by decide, by decide, by decide, by decide, by decide,
    by decide, by decide, by decide, by decide, by decide⟩

/-- C6 amended: whenever a step call under a `find`, `take`, or `put`
subgoal reaches an openable current receptacle that is not yet inspected
this visit, the call marks it inspected, pushes the matching close
command onto `deferredActions`, and returns the open command — for
`find`, under every frontier-resolution path (sticky memory, an already
non-empty frontier, or the class/affordance heuristics; only the
affordance `KeyError`, which aborts the call before the gate, is
excluded); and `checkedInsideCurrent`, once true, stays true in any call
that does not return a "go to" command (it is reset only by go-to, even
one targeting the same receptacle).  Unlike the original claim, the
queued close is not always eventually returned: `find` completion
discards `deferredActions` (see the counterexample). -/
theorem C6_open_close_amended (P : Priors) (rnd : Nat) (s : PolicyState) (obs : String) :
    (∀ cls, s.steps < s.max_steps →
      s.subgoals.get? s.subgoal_idx = some ⟨"find", cls⟩ →
      objsOfCls cls (ingest { s with steps := s.steps + 1 } obs).visible_objects = [] →
      ¬ (dictGet? (ingest { s with steps := s.steps + 1 } obs).obj_cls_to_receptacle_map
            cls = none ∧
         (ingest { s with steps := s.steps + 1 } obs).receptacles_to_check = [] ∧
         cls ∉ P.RECEPTACLES ∧
         dictGetL? P.OBJECT_TO_VAL_RECEPTACLE cls = none) →
      is_receptacle_openable P (ingest { s with steps := s.steps + 1 } obs)
        (ingest { s with steps := s.steps + 1 } obs).curr_recep = .ok true →
      (ingest { s with steps := s.steps + 1 } obs).checked_inside_curr_recep = false →
      ∃ rtc, act P rnd s obs =
        .cmd ("open " ++ (ingest { s with steps := s.steps + 1 } obs).curr_recep)
          { ingest { s with steps := s.steps + 1 } obs with
            receptacles_to_check := rtc
            checked_inside_curr_recep := true
            action_backlog :=
              (ingest { s with steps := s.steps + 1 } obs).action_backlog ++
                ["close " ++ (ingest { s with steps := s.steps + 1 } obs).curr_recep] }) ∧
    (∀ cls, s.steps < s.max_steps →
      s.subgoals.get? s.subgoal_idx = some ⟨"take", cls⟩ →
      is_receptacle_openable P (ingest { s with steps := s.steps + 1 } obs)
        (ingest { s with steps := s.steps + 1 } obs).curr_recep = .ok true →
      (ingest { s with steps := s.steps + 1 } obs).checked_inside_curr_recep = false →
      act P rnd s obs =
        .cmd ("open " ++ (ingest { s with steps := s.steps + 1 } obs).curr_recep)
          { ingest { s with steps := s.steps + 1 } obs with
            action_backlog :=
              (ingest { s with steps := s.steps + 1 } obs).action_backlog ++
                ["close " ++ (ingest { s with steps := s.steps + 1 } obs).curr_recep]
            checked_inside_curr_recep := true }) ∧
    (∀ cls, s.steps < s.max_steps →
      s.subgoals.get? s.subgoal_idx = some ⟨"put", cls⟩ →
      is_receptacle_openable P (ingest { s with steps := s.steps + 1 } obs)
        (ingest { s with steps := s.steps + 1 } obs).curr_recep = .ok true →
      (ingest { s with steps := s.steps + 1 } obs).checked_inside_curr_recep = false →
      act P rnd s obs =
        .cmd ("open " ++ (ingest { s with steps := s.steps + 1 } obs).curr_recep)
          { ingest { s with steps := s.steps + 1 } obs with
            action_backlog :=
              (ingest { s with steps := s.steps + 1 } obs).action_backlog ++
                ["close " ++ (ingest { s with steps := s.steps + 1 } obs).curr_recep]
            checked_inside_curr_recep := true }) ∧
    (s.checked_inside_curr_recep = true →
      (act P rnd s obs).state.checked_inside_curr_recep = true ∨
      (act P rnd s obs).command =
        some ("go to " ++ (act P rnd s obs).state.curr_recep)) := by
  refine ⟨?_, ?_, ?_, ?_⟩
  · intro cls hsteps hsg hvis hres hopn hchk
    have hlt : s.subgoal_idx < s.subgoals.length := List.get?_eq_some.mp hsg |>.1
    have hact : act P rnd s obs =
        findSearch P (ingest { s with steps := s.steps + 1 } obs) cls := by
      unfold act
      dsimp only
      rw [if_neg (by omega), if_neg (by omega)]
      unfold actBody
      have h1 : (ingest { s with steps := s.steps + 1 } obs).subgoals.get?
          (ingest { s with steps := s.steps + 1 } obs).subgoal_idx
          = some ⟨"find", cls⟩ := by
        rw [(ingest_frame _ _).1, (ingest_frame _ _).2.2.2.1]
        exact hsg
      rw [h1]
      simp only [↓reduceIte]
      rw [if_pos (by simpa [List.isEmpty_iff] using hvis)]
    rw [hact]
    exact findSearch_open P _ cls hres hopn hchk
  · intro cls hsteps hsg hopn hchk
    have hlt : s.subgoal_idx < s.subgoals.length := List.get?_eq_some.mp hsg |>.1
    unfold act
    dsimp only
    rw [if_neg (by omega), if_neg (by omega)]
    unfold actBody
    have h1 : (ingest { s with steps := s.steps + 1 } obs).subgoals.get?
        (ingest { s with steps := s.steps + 1 } obs).subgoal_idx = some ⟨"take", cls⟩ := by
      rw [(ingest_frame _ _).1, (ingest_frame _ _).2.2.2.1]
      exact hsg
    rw [h1]
    dsimp only
    rw [if_neg (by decide)]
    unfold dispatchRest
    rw [h1]
    dsimp only
    rw [if_neg (by decide), if_pos rfl]
    exact takeBranch_open P rnd _ _ hopn hchk
  · intro cls hsteps hsg hopn hchk
    have hlt : s.subgoal_idx < s.subgoals.length := List.get?_eq_some.mp hsg |>.1
    unfold act
    dsimp only
    rw [if_neg (by omega), if_neg (by omega)]
    unfold actBody
    have h1 : (ingest { s with steps := s.steps + 1 } obs).subgoals.get?
        (ingest { s with steps := s.steps + 1 } obs).subgoal_idx = some ⟨"put", cls⟩ := by
      rw [(ingest_frame _ _).1, (ingest_frame _ _).2.2.2.1]
      exact hsg
    rw [h1]
    dsimp only
    rw [if_neg (by decide)]
    unfold dispatchRest
    rw [h1]
    dsimp only
    rw [if_neg (by decide), if_neg (by decide), if_pos rfl]
    exact putBranch_open P _ hopn hchk
  · intro hs
    unfold act
    dsimp only
    repeat' split
    all_goals first
      | (exact actBody_checked (by rw [(ingest_frame _ _).2.2.2.2.2.1]; exact hs))
      | (left; simp [ActResult.state, hs])

/-- C6 witness: the find-gating equation instantiated on a first search
visit with empty sticky memory and empty frontier (the heuristic
resolution path), and the take-gating equation instantiated at a policy
standing at a closed cabinet. -/
theorem C6_open_close_amended_witness :
    (∃ rtc, act samplePriors 0 sCab "Nothing here" =
      .cmd ("open " ++
            (ingest { sCab with steps := sCab.steps + 1 } "Nothing here").curr_recep)
        { ingest { sCab with steps := sCab.steps + 1 } "Nothing here" with
          receptacles_to_check := rtc
          checked_inside_curr_recep := true
          action_backlog :=
            (ingest { sCab with steps := sCab.steps + 1 } "Nothing here").action_backlog
              ++ ["close " ++
                (ingest { sCab with steps := sCab.steps + 1 } "Nothing here").curr_recep] }) ∧
    act samplePriors 0 wTakeGate "x" =
      .cmd ("open " ++ (ingest { wTakeGate with steps := wTakeGate.steps + 1 } "x").curr_recep)
        { ingest { wTakeGate with steps := wTakeGate.steps + 1 } "x" with
          action_backlog :=
            (ingest { wTakeGate with steps := wTakeGate.steps + 1 } "x").action_backlog ++
              ["close " ++
                (ingest { wTakeGate with steps := wTakeGate.steps + 1 } "x").curr_recep]
          checked_inside_curr_recep := true } :=
  ⟨(C6_open_close_amended samplePriors 0 sCab "Nothing here").1 "apple"
      (by decide) (by decide) (by decide) (by decide) (by rfl) (by decide),
    (C6_open_close_amended samplePriors 0 wTakeGate "x").2.1 "apple"
      (by decide) (by decide) (by rfl) (by decide)⟩

end HandCoded

namespace HandCoded

lemma choose_eq_none {rnd : Nat} {l : List String} (h : choose rnd l = none) : l = [] := by
  cases l with
  | nil => rfl
  | cons a l =>
    unfold choose at h
    rw [List.get?_eq_none] at h
    have := Nat.mod_lt rnd (show 0 < (a :: l).length by simp)
    omega

lemma is_receptacle_openable_error {P : Priors} {t : PolicyState} {r : String} {e : Unit}
    (h : is_receptacle_openable P t r = .error e) :
    ¬ r = "" ∧ dictGet? t.receptacles r = none := by
  unfold is_receptacle_openable at h
  split at h
  · simp at h
  · split at h
    · simp at h
    · exact ⟨by assumption, by assumption⟩

lemma dictGet?_ne_none_of_mem_keys {d : List (String × String)} {r : String}
    (h : r ∈ d.map (fun p => p.1)) : ¬ dictGet? d r = none := by
  obtain ⟨p, hp, he⟩ := List.mem_map.mp h
  intro hc
  unfold dictGet? at hc
  rw [Option.map_eq_none'] at hc
  rw [List.find?_eq_none] at hc
  exact hc p hp (by simp [he])

lemma continueFind_cases (P : Priors) (t : PolicyState) :
    (∃ c u, continueFind P t = .cmd c u) ∨
    (¬ t.curr_recep = "" ∧ dictGet? t.receptacles t.curr_recep = none) ∨
    t.receptacles_to_check = [] ∨
    (∃ r, r ∈ t.receptacles_to_check ∧ ¬ r = "" ∧ dictGet? t.receptacles r = none) := by
  unfold continueFind
  repeat' split
  all_goals first
    | (left; exact ⟨_, _, rfl⟩)
    | (right; left; exact is_receptacle_openable_error (by assumption))
    | (right; right; left; exact List.getLast?_eq_none_iff.mp (by assumption))
    | (right; right; right
       exact ⟨_, mem_of_getLast?_eq_some (by assumption),
         is_receptacle_openable_error (by assumption)⟩)

lemma findSearch_cases (P : Priors) (t : PolicyState) (param : String) :
    (∃ c u, findSearch P t param = .cmd c u) ∨
    ((dictGet? t.obj_cls_to_receptacle_map param = none ∧
      t.receptacles_to_check = [] ∧ param ∉ P.RECEPTACLES ∧
      dictGetL? P.OBJECT_TO_VAL_RECEPTACLE param = none) ∨
     (¬ t.curr_recep = "" ∧ dictGet? t.receptacles t.curr_recep = none) ∨
     (dictGet? t.obj_cls_to_receptacle_map param = none ∧
      t.receptacles_to_check = [] ∧ t.receptacles = []) ∨
     (∃ r, (dictGet? t.obj_cls_to_receptacle_map param = some r ∨
            r ∈ t.receptacles_to_check) ∧ ¬ r = "" ∧
           dictGet? t.receptacles r = none)) := by
  unfold findSearch
  split
  · -- sticky memory: frontier := [r]
    rename_i r hmem
    rcases continueFind_cases P { t with receptacles_to_check := [r] } with
      hcmd | hkey | hempty | ⟨r', hr'm, hne, hnone⟩
    · exact Or.inl hcmd
    · exact Or.inr (Or.inr (Or.inl hkey))
    · simp at hempty
    · simp only [List.mem_singleton] at hr'm
      subst hr'm
      exact Or.inr (Or.inr (Or.inr (Or.inr ⟨r', Or.inl hmem, hne, hnone⟩)))
  · rename_i hmem
    split
    · rename_i hrtc
      split
      · -- param is a receptacle class
        rcases continueFind_cases P
            { t with receptacles_to_check :=
                if (recepsOfType t param).isEmpty then t.receptacles.map (fun p => p.1)
                else recepsOfType t param } with
          hcmd | hkey | hempty | ⟨r, hrm, hne, hnone⟩
        · exact Or.inl hcmd
        · exact Or.inr (Or.inr (Or.inl hkey))
        · refine Or.inr (Or.inr (Or.inr (Or.inl ⟨hmem, List.isEmpty_iff.mp hrtc, ?_⟩)))
          simp only at hempty
          revert hempty
          split
          · intro hempty
            simpa using hempty
          · intro hempty
            rename_i hl
            simp [hempty] at hl
        · exfalso
          simp only at hrm
          revert hrm
          split <;> intro hrm
          · exact dictGet?_ne_none_of_mem_keys hrm hnone
          · rcases recepsOfType_mentionOK t param r hrm with h0 | h0
            · exact hne h0
            · exact dictGet?_ne_none_of_mem_keys h0 hnone
      · split
        · -- affordance entry missing: KeyError
          rename_i hotvr
          exact Or.inr (Or.inl ⟨hmem, List.isEmpty_iff.mp hrtc, by assumption, hotvr⟩)
        · -- affordance receptacles
          rename_i rs hotvr
          rcases continueFind_cases P
              { t with receptacles_to_check :=
                  if (recepsHolding t rs).isEmpty then t.receptacles.map (fun p => p.1)
                  else recepsHolding t rs } with
            hcmd | hkey | hempty | ⟨r, hrm, hne, hnone⟩
          · exact Or.inl hcmd
          · exact Or.inr (Or.inr (Or.inl hkey))
          · refine Or.inr (Or.inr (Or.inr (Or.inl ⟨hmem, List.isEmpty_iff.mp hrtc, ?_⟩)))
            simp only at hempty
            revert hempty
            split
            · intro hempty
              simpa using hempty
            · intro hempty
              rename_i hl
              simp [hempty] at hl
          · exfalso
            simp only at hrm
            revert hrm
            split <;> intro hrm
            · exact dictGet?_ne_none_of_mem_keys hrm hnone
            · rcases recepsHolding_mentionOK t rs r hrm with h0 | h0
              · exact hne h0
              · exact dictGet?_ne_none_of_mem_keys h0 hnone
    · -- frontier already non-empty
      rename_i hrtc
      rcases continueFind_cases P t with hcmd | hkey | hempty | ⟨r, hrm, hne, hnone⟩
      · exact Or.inl hcmd
      · exact Or.inr (Or.inr (Or.inl hkey))
      · exact absurd (List.isEmpty_iff.mpr hempty) hrtc
      · exact Or.inr (Or.inr (Or.inr (Or.inr ⟨r, Or.inr hrm, hne, hnone⟩)))

lemma gotoBranch_cases (t : PolicyState) (sg : Subgoal) :
    (∃ c u, gotoBranch t sg = .cmd c u) ∨ recepsOfType t sg.param = [] := by
  unfold gotoBranch
  split
  · exact Or.inr (List.head?_eq_none_iff.mp (by assumption))
  · exact Or.inl ⟨_, _, rfl⟩

lemma takeBranch_cases (P : Priors) (rnd : Nat) (t : PolicyState) (sg : Subgoal) :
    (∃ c u, takeBranch P rnd t sg = .cmd c u) ∨
    (¬ t.curr_recep = "" ∧ dictGet? t.receptacles t.curr_recep = none) ∨
    objsOfCls sg.param t.visible_objects = [] := by
  unfold takeBranch
  repeat' split
  all_goals first
    | (left; exact ⟨_, _, rfl⟩)
    | (right; left; exact is_receptacle_openable_error (by assumption))
    | (right; right; exact choose_eq_none (by assumption))

lemma putBranch_cases (P : Priors) (t : PolicyState) :
    (∃ c u, putBranch P t = .cmd c u) ∨
    (¬ t.curr_recep = "" ∧ dictGet? t.receptacles t.curr_recep = none) ∨
    t.inventory = [] := by
  unfold putBranch
  repeat' split
  all_goals first
    | (left; exact ⟨_, _, rfl⟩)
    | (right; left; exact is_receptacle_openable_error (by assumption))
    | (right; right; exact List.getLast?_eq_none_iff.mp (by assumption))

lemma applianceBranch_cases (verb : String) (t : PolicyState) :
    (∃ c u, applianceBranch verb t = .cmd c u) ∨ t.inventory = [] := by
  unfold applianceBranch
  split
  · exact Or.inr (List.head?_eq_none_iff.mp (by assumption))
  · exact Or.inl ⟨_, _, rfl⟩

lemma sliceBranch_cases (rnd : Nat) (t : PolicyState) (sg : Subgoal) :
    (∃ c u, sliceBranch rnd t sg = .cmd c u) ∨
    objsOfCls sg.param t.visible_objects = [] ∨ t.inventory = [] := by
  unfold sliceBranch
  repeat' split
  all_goals first
    | (left; exact ⟨_, _, rfl⟩)
    | (right; left; exact choose_eq_none (by assumption))
    | (right; right; exact List.head?_eq_none_iff.mp (by assumption))

lemma useBranch_cases (rnd : Nat) (t : PolicyState) (sg : Subgoal) :
    (∃ c u, useBranch rnd t sg = .cmd c u) ∨
    objsOfCls sg.param t.visible_objects = [] := by
  unfold useBranch
  split
  · exact Or.inr (choose_eq_none (by assumption))
  · exact Or.inl ⟨_, _, rfl⟩

set_option maxHeartbeats 1000000 in
lemma dispatchRest_cases (P : Priors) (rnd : Nat) (t : PolicyState)
    (hlt : t.subgoal_idx < t.subgoals.length) :
    (∃ c u, dispatchRest P rnd t = .cmd c u) ∨
    (∃ sgN, t.subgoals.get? t.subgoal_idx = some sgN ∧
      ((sgN.action = "goto" ∧ recepsOfType t sgN.param = []) ∨
       ((sgN.action = "take" ∨ sgN.action = "put") ∧
         ¬ t.curr_recep = "" ∧ dictGet? t.receptacles t.curr_recep = none) ∨
       (sgN.action = "take" ∧ objsOfCls sgN.param t.visible_objects = []) ∨
       (sgN.action = "put" ∧ t.inventory = []) ∨
       ((sgN.action = "heat" ∨ sgN.action = "cool" ∨ sgN.action = "clean") ∧
         t.inventory = []) ∨
       (sgN.action = "slice" ∧
         (objsOfCls sgN.param t.visible_objects = [] ∨ t.inventory = [])) ∨
       (sgN.action = "use" ∧ objsOfCls sgN.param t.visible_objects = []) ∨
       sgN.action ∉ (["goto", "take", "put", "open", "close", "heat", "cool",
         "clean", "slice", "use"] : List String))) := by
  unfold dispatchRest
  split
  · rename_i heq
    rw [List.get?_eq_none] at heq
    omega
  · rename_i sgN heq
    repeat' split
    · rename_i h1
      rcases gotoBranch_cases t sgN with hc | hg
      · exact Or.inl hc
      · exact Or.inr ⟨sgN, heq, Or.inl ⟨h1, hg⟩⟩
    · rename_i h2
      rcases takeBranch_cases P rnd t sgN with hc | hk | ho
      · exact Or.inl hc
      · exact Or.inr ⟨sgN, heq, Or.inr (Or.inl ⟨Or.inl h2, hk⟩)⟩
      · exact Or.inr ⟨sgN, heq, Or.inr (Or.inr (Or.inl ⟨h2, ho⟩))⟩
    · rename_i h3
      rcases putBranch_cases P t with hc | hk | hi
      · exact Or.inl hc
      · exact Or.inr ⟨sgN, heq, Or.inr (Or.inl ⟨Or.inr h3, hk⟩)⟩
      · exact Or.inr ⟨sgN, heq, Or.inr (Or.inr (Or.inr (Or.inl ⟨h3, hi⟩)))⟩
    · exact Or.inl ⟨_, _, rfl⟩
    · exact Or.inl ⟨_, _, rfl⟩
    · rename_i h6
      rcases applianceBranch_cases "heat" t with hc | hi
      · exact Or.inl hc
      · exact Or.inr ⟨sgN, heq,
          Or.inr (Or.inr (Or.inr (Or.inr (Or.inl ⟨Or.inl h6, hi⟩))))⟩
    · rename_i h7
      rcases applianceBranch_cases "cool" t with hc | hi
      · exact Or.inl hc
      · exact Or.inr ⟨sgN, heq,
          Or.inr (Or.inr (Or.inr (Or.inr (Or.inl ⟨Or.inr (Or.inl h7), hi⟩))))⟩
    · rename_i h8
      rcases applianceBranch_cases "clean" t with hc | hi
      · exact Or.inl hc
      · exact Or.inr ⟨sgN, heq,
          Or.inr (Or.inr (Or.inr (Or.inr (Or.inl ⟨Or.inr (Or.inr h8), hi⟩))))⟩
    · rename_i h9
      rcases sliceBranch_cases rnd t sgN with hc | ho | hi
      · exact Or.inl hc
      · exact Or.inr ⟨sgN, heq,
          Or.inr (Or.inr (Or.inr (Or.inr (Or.inr (Or.inl ⟨h9, Or.inl ho⟩)))))⟩
      · exact Or.inr ⟨sgN, heq,
          Or.inr (Or.inr (Or.inr (Or.inr (Or.inr (Or.inl ⟨h9, Or.inr hi⟩)))))⟩
    · rename_i h10
      rcases useBranch_cases rnd t sgN with hc | ho
      · exact Or.inl hc
      · exact Or.inr ⟨sgN, heq,
          Or.inr (Or.inr (Or.inr (Or.inr (Or.inr (Or.inr (Or.inl ⟨h10, ho⟩))))))⟩
    · rename_i n1 n2 n3 n4 n5 n6 n7 n8 n9 n10
      refine Or.inr ⟨sgN, heq,
        Or.inr (Or.inr (Or.inr (Or.inr (Or.inr (Or.inr (Or.inr ?_))))))⟩
      simp only [List.mem_cons, List.not_mem_nil, or_false]
      push_neg
      exact ⟨n1, n2, n3, n4, n5, n6, n7, n8, n9, n10⟩

lemma actBody_cases (P : Priors) (rnd : Nat) (t : PolicyState)
    (hlt : t.subgoal_idx < t.subgoals.length) :
    (∃ c u, actBody P rnd t = .cmd c u) ∨ BodyMissing P t := by
  unfold actBody
  split
  · rename_i heq
    rw [List.get?_eq_none] at heq
    omega
  · rename_i sg heq
    split
    · rename_i hfind
      split
      · rename_i hobjs
        rcases findSearch_cases P t sg.param with hc | hA
        · exact Or.inl hc
        · exact Or.inr ⟨sg, heq, Or.inl ⟨hfind, List.isEmpty_iff.mp hobjs, hA⟩⟩
      · rename_i hobjs
        have hobjs' : ¬ objsOfCls sg.param t.visible_objects = [] := by
          simpa [List.isEmpty_iff] using hobjs
        by_cases hlen : t.subgoals.length ≤ t.subgoal_idx + 1
        · exact Or.inr ⟨sg, heq, Or.inr (Or.inl ⟨hfind, hobjs', hlen⟩)⟩
        · rcases dispatchRest_cases P rnd
              { t with
                receptacles_to_check := []
                action_backlog := []
                subgoal_idx := t.subgoal_idx + 1 }
              (by dsimp only; omega) with hc | ⟨sgN, hN, hB⟩
          · exact Or.inl hc
          · exact Or.inr ⟨sg, heq, Or.inr (Or.inr ⟨sgN, Or.inl ⟨hfind, hobjs', hN⟩, hB⟩)⟩
    · rename_i hnfind
      rcases dispatchRest_cases P rnd t hlt with hc | ⟨sgN, hN, hB⟩
      · exact Or.inl hc
      · have hsq : sgN = sg := by
          rw [heq] at hN
          exact (Option.some_inj.mp hN).symm
        subst hsq
        exact Or.inr ⟨sgN, hN, Or.inr (Or.inr ⟨sgN, Or.inr ⟨hnfind, rfl⟩, hB⟩)⟩

/-- C1 amended: a single `act` call either returns exactly one command
string or raises one of the two terminal errors (`Timeout`,
`PlanExhausted`) — except in the missing-entity situations enumerated by
`BodyMissing`, which are exactly where the source escapes with an
uncaught `IndexError` / `KeyError` or returns `None`; in particular, when
the active (post-advance) subgoal needs an inventory item or a visible
object of its target class and none exists, the call does fail with an
uncaught `IndexError`, contrary to the original claim. -/
theorem C1_step_result_amended (P : Priors) (rnd : Nat) (s : PolicyState) (obs : String) :
    (∃ c t, act P rnd s obs = .cmd c t) ∨
    (∃ t, act P rnd s obs = .timeout t) ∨
    (∃ t, act P rnd s obs = .failed t) ∨
    (s.steps < s.max_steps ∧ s.subgoal_idx < s.subgoals.length ∧
      BodyMissing P (ingest { s with steps := s.steps + 1 } obs)) := by
  unfold act
  dsimp only
  split
  · exact Or.inr (Or.inl ⟨_, rfl⟩)
  · rename_i hsteps
    split
    · split
      · exact Or.inl ⟨_, _, rfl⟩
      · exact Or.inr (Or.inr (Or.inl ⟨_, rfl⟩))
    · rename_i hidx
      have hlt : (ingest { s with steps := s.steps + 1 } obs).subgoal_idx <
          (ingest { s with steps := s.steps + 1 } obs).subgoals.length := by
        rw [(ingest_frame _ _).1, (ingest_frame _ _).2.2.2.1]
        show s.subgoal_idx < s.subgoals.length
        omega
      rcases actBody_cases P rnd _ hlt with ⟨c, u, hc⟩ | hb
      · exact Or.inl ⟨c, u, hc⟩
      · exact Or.inr (Or.inr (Or.inr ⟨by omega, by omega, hb⟩))

/-- C1 counterexample: a reachable state (after 5 calls of a fresh
pick-and-place policy: welcome census, search, opportunistic open, drain
close, go to fridge, find completes into `take`'s open) in which the
active subgoal is `take(apple)` and the next observation shows no apple;
the 6th call neither returns a command nor raises a terminal error — it
escapes with `IndexError` from `random.choice([])`, refuting the claim
exactly in the case it singles out. -/
theorem C1_counterexample :
    Reachable samplePriors c1Run5.state ∧
    c1Run5.state.subgoals.get? c1Run5.state.subgoal_idx = some ⟨"take", "apple"⟩ ∧
    objsOfCls "apple" (ingest { c1Run5.state with steps := c1Run5.state.steps + 1 }
      "The fridge_1 is empty.").visible_objects = [] ∧
    c1Run6 = .indexError c1Run6.state ∧
    c1Run6.command = none := by
  refine ⟨?_, by decide, by decide, by decide, by decide⟩
  exact Reachable.step _ 0 "You see apple_3 in fridge_1."
    (Reachable.step _ 0 "The fridge_1 is closed."
      (Reachable.step _ 0 "The fridge_1 is empty."
        (Reachable.step _ 0 "You see a closed fridge_1."
          (Reachable.step _ 0 "Welcome fridge_1"
            (Reachable.init (pickAndPlaceSimpleSubgoals "apple" "countertop") 100)))))

end HandCoded
